import Mathlib

/-!
# Message model and builders of `messages.go`

A shallow embedding of the message structs, their constructors and their
append operations, together with the JSON objects that Go's `encoding/json`
produces for them from the struct tags and the structs it reads back from such
objects.

Modelling conventions
* A Go `string` is a sequence of bytes (`GoString`), valid UTF-8 or not; a
  string literal stands for the UTF-8 bytes of its characters. Member names of
  JSON objects, which come from the struct tags, are Lean `String`s.
* `int64` is `Int` restricted by `isInt64` where the range matters.
* A slice is a `List`; `append(s, x)` is `s ++ [x]`. A nil slice and an empty
  slice are both `[]` (every slice field of the source is `omitempty`, which
  treats the two alike).
* The pointer field `Attachment *attachment` is an `Option`; dereferencing
  `none` is the run-time panic `GoPanic.nilPointerDereference`.
* A method with a pointer receiver that mutates its receiver becomes a function
  returning the receiver's new value.
* The receiver type `Messenger` is declared outside `messages.go` and is never
  inspected by the constructors, so it is a type parameter.
* Serialization is modelled at the level of JSON values (`JSON`), with object
  members kept in emission order; a JSON string value is given by its UTF-8
  bytes.
-/

set_option autoImplicit false

namespace messenger

/-! ## Go strings

A Go `string` is a finite sequence of bytes; nothing requires the bytes to be valid
UTF-8. The characters of a string literal in Go source are stored in their UTF-8
encoding.
-/

/-- A Go `string`: a finite sequence of bytes. -/
abbrev GoString := List (Fin 256)

/-- UTF-8 encoding of one code point, as a Go string literal stores its characters. -/
def GoString.encodeRune (c : Char) : GoString :=
  if c.toNat < 0x80 then [Fin.ofNat c.toNat]
  else if c.toNat < 0x800 then
    [Fin.ofNat (0xC0 + c.toNat / 0x40), Fin.ofNat (0x80 + c.toNat % 0x40)]
  else if c.toNat < 0x10000 then
    [Fin.ofNat (0xE0 + c.toNat / 0x1000), Fin.ofNat (0x80 + c.toNat / 0x40 % 0x40),
      Fin.ofNat (0x80 + c.toNat % 0x40)]
  else
    [Fin.ofNat (0xF0 + c.toNat / 0x40000), Fin.ofNat (0x80 + c.toNat / 0x1000 % 0x40),
      Fin.ofNat (0x80 + c.toNat / 0x40 % 0x40), Fin.ofNat (0x80 + c.toNat % 0x40)]

/-- The Go string written as the literal `s`: the UTF-8 bytes of its characters. -/
def GoString.ofString (s : String) : GoString := s.data.flatMap GoString.encodeRune

instance : Coe String GoString := ⟨GoString.ofString⟩

/-- Tells whether `b` is a UTF-8 continuation byte, `0x80..0xBF`. -/
def isContinuation (b : Fin 256) : Bool := 0x80 ≤ b.val && b.val ≤ 0xBF

/-- The range accepted for the second byte after the leading byte `b0` (the
`acceptRanges` table of package `unicode/utf8`). -/
def acceptRange (b0 : Fin 256) : Nat × Nat :=
  if b0.val = 0xE0 then (0xA0, 0xBF)
  else if b0.val = 0xED then (0x80, 0x9F)
  else if b0.val = 0xF0 then (0x90, 0xBF)
  else if b0.val = 0xF4 then (0x80, 0x8F)
  else (0x80, 0xBF)

/-- Tells whether `b1` may follow the leading byte `b0`. -/
def acceptsSecond (b0 b1 : Fin 256) : Bool :=
  (acceptRange b0).1 ≤ b1.val && b1.val ≤ (acceptRange b0).2

/-- Go `utf8.DecodeRuneInString`, reduced to the width it reports: the number of bytes
of the well-formed UTF-8 sequence at the head of the string, and `0` where Go returns
`(RuneError, 1)` because no well-formed sequence starts there (or the string is
empty). -/
def runeWidth : GoString → Nat
  | [] => 0
  | b0 :: rest =>
    if b0.val < 0x80 then 1
    else if 0xC2 ≤ b0.val ∧ b0.val ≤ 0xDF then
      match rest with
      | b1 :: _ => if isContinuation b1 then 2 else 0
      | _ => 0
    else if 0xE0 ≤ b0.val ∧ b0.val ≤ 0xEF then
      match rest with
      | b1 :: b2 :: _ => if acceptsSecond b0 b1 && isContinuation b2 then 3 else 0
      | _ => 0
    else if 0xF0 ≤ b0.val ∧ b0.val ≤ 0xF4 then
      match rest with
      | b1 :: b2 :: b3 :: _ =>
        if acceptsSecond b0 b1 && isContinuation b2 && isContinuation b3 then 4 else 0
      | _ => 0
    else 0

/-- The three bytes of U+FFFD, the replacement character. -/
def replacementChar : GoString := [0xEF, 0xBF, 0xBD]

/-- Worker of `coerceUTF8`; `fuel` bounds the number of decoding steps. -/
def coerceUTF8Aux : Nat → GoString → GoString
  | 0, _ => []
  | _ + 1, [] => []
  | fuel + 1, b :: rest =>
    match runeWidth (b :: rest) with
    | 0 => replacementChar ++ coerceUTF8Aux fuel rest
    | n + 1 => b :: rest.take n ++ coerceUTF8Aux fuel (rest.drop n)

/-- The string value `encoding/json` writes for a Go string: well-formed UTF-8
sequences are kept byte for byte, and every byte that starts none is replaced by
U+FFFD. (Escapes such as `<` only change the JSON text, not the value.) -/
def coerceUTF8 (s : GoString) : GoString := coerceUTF8Aux s.length s

/-- Worker of `ValidString`; `fuel` bounds the number of decoding steps. -/
def ValidStringAux : Nat → GoString → Bool
  | 0, s => s.isEmpty
  | _ + 1, [] => true
  | fuel + 1, b :: rest =>
    match runeWidth (b :: rest) with
    | 0 => false
    | n + 1 => ValidStringAux fuel (rest.drop n)

/-- Go `utf8.ValidString`: the string consists entirely of well-formed UTF-8
sequences. -/
def ValidString (s : GoString) : Bool := ValidStringAux s.length s

/-! ## Named string types and constants (lines 3-56) -/

/-- ButtonType for buttons, `type ButtonType string`. -/
abbrev ButtonType := GoString

/-- ContentType for quick replies, `type ContentType string`. -/
abbrev ContentType := GoString

/-- AttachmentType, `type AttachmentType string`. -/
abbrev AttachmentType := GoString

/-- TemplateType, `type TemplateType string`. -/
abbrev TemplateType := GoString

/-- NotificationType for sent messages, `type NotificationType string`. -/
abbrev NotificationType := GoString

def ButtonTypeWebURL : ButtonType := "web_url"
def ButtonTypePostback : ButtonType := "postback"
def AttachmentTypeTemplate : AttachmentType := "template"
def TemplateTypeGeneric : TemplateType := "generic"
def NotificationTypeRegular : NotificationType := "REGULAR"
def NotificationTypeSilentPush : NotificationType := "SILENT_PUSH"
def NotificationTypeNoPush : NotificationType := "NO_PUSH"
def TextQuickReply : ContentType := "text"
def LocationQuickReply : ContentType := "location"
def PhoneNumberQuickReply : ContentType := "user_phone_number"
def EmailQuickReply : ContentType := "user_email"

/-! ## Structs (lines 58-127) -/

/-- The range of Go's `int64`. -/
def isInt64 (i : Int) : Prop := -(2 ^ 63 : Int) ≤ i ∧ i < (2 ^ 63 : Int)

instance (i : Int) : Decidable (isInt64 i) := by
  unfold isInt64; exact inferInstance

/-- Struct `recipient`: `ID int64`. -/
structure recipient where
  ID : Int
  deriving DecidableEq, Repr

/-- Struct `textMessageContent`. -/
structure textMessageContent where
  Text : GoString
  deriving DecidableEq, Repr

/-- Struct `QuickReply`. -/
structure QuickReply where
  ContentType : ContentType
  Title : GoString
  Payload : GoString
  ImageURL : GoString
  deriving DecidableEq, Repr

/-- Struct `quickReplyContent`. -/
structure quickReplyContent where
  Text : GoString
  QuickReplies : List QuickReply
  deriving DecidableEq, Repr

/-- Struct `Button`; the Go field `Type` is spelled `Type_` (`Type` is reserved). -/
structure Button where
  Type_ : ButtonType
  URL : GoString
  Title : GoString
  Payload : GoString
  deriving DecidableEq, Repr

/-- Struct `Element`. -/
structure Element where
  Title : GoString
  Subtitle : GoString
  ItemURL : GoString
  ImageURL : GoString
  Buttons : List Button
  deriving DecidableEq, Repr

/-- Struct `payload`. -/
structure payload where
  TemplateType : GoString
  Elements : List Element
  deriving DecidableEq, Repr

/-- Struct `attachment`; the Go field `Type` is spelled `Type_`. -/
structure attachment where
  Type_ : GoString
  Payload : payload
  deriving DecidableEq, Repr

/-- Struct `genericMessageContent`: `Attachment *attachment`, `none` is nil. -/
structure genericMessageContent where
  Attachment : Option attachment
  deriving DecidableEq, Repr

/-- Struct `TextMessage`. -/
structure TextMessage where
  Message : textMessageContent
  Recipient : recipient
  NotificationType : NotificationType
  deriving DecidableEq, Repr

/-- Struct `QuickReplyMessage`. -/
structure QuickReplyMessage where
  Message : quickReplyContent
  Recipient : recipient
  NotificationType : NotificationType
  deriving DecidableEq, Repr

/-- Struct `GenericMessage`. -/
structure GenericMessage where
  Message : genericMessageContent
  Recipient : recipient
  NotificationType : NotificationType
  deriving DecidableEq, Repr

/-- Interface `Message`: implemented by exactly the three message structs. -/
inductive Message where
  | text (m : TextMessage)
  | generic (m : GenericMessage)
  | quickReply (m : QuickReplyMessage)
  deriving DecidableEq, Repr

/-- Run-time panics an operation of this file can raise. -/
inductive GoPanic where
  | nilPointerDereference
  deriving DecidableEq, Repr

/-! ## Constructors and append operations (lines 129-248) -/

/-- Go `NewTextMessage` (lines 132-137); unset fields take their zero value. -/
def NewTextMessage {Messenger : Type} (_msng : Messenger) (userID : Int) (text : GoString) :
    TextMessage :=
  { Recipient := { ID := userID }
    Message := { Text := text }
    NotificationType := "" }

/-- Go `NewQuickReplyMessage` (lines 139-144). -/
def NewQuickReplyMessage {Messenger : Type} (_msng : Messenger) (userID : Int) (text : GoString) :
    QuickReplyMessage :=
  { Recipient := { ID := userID }
    Message := { Text := text, QuickReplies := [] }
    NotificationType := "" }

/-- Go `NewGenericMessage` (lines 148-158). -/
def NewGenericMessage {Messenger : Type} (_msng : Messenger) (userID : Int) : GenericMessage :=
  { Recipient := { ID := userID }
    Message :=
      { Attachment := some
          { Type_ := "template"
            Payload := { TemplateType := "generic", Elements := [] } } }
    NotificationType := "" }

/-- Go `newElement` (lines 180-188). -/
def newElement (title subtitle itemURL imageURL : GoString) (buttons : List Button) : Element :=
  { Title := title
    Subtitle := subtitle
    ItemURL := itemURL
    ImageURL := imageURL
    Buttons := buttons }

/-- Go `NewElement` (lines 176-178). -/
def NewElement {Messenger : Type} (_msng : Messenger) (title subtitle itemURL imageURL : GoString)
    (buttons : List Button) : Element :=
  newElement title subtitle itemURL imageURL buttons

/-- Go `AddElement` (lines 169-171): `m.Message.Attachment` is dereferenced, then the
element is appended to `Payload.Elements`. -/
def AddElement (m : GenericMessage) (e : Element) : Except GoPanic GenericMessage :=
  match m.Message.Attachment with
  | none => .error .nilPointerDereference
  | some a =>
    .ok { m with
      Message := { m.Message with
        Attachment := some { a with
          Payload := { a.Payload with Elements := a.Payload.Elements ++ [e] } } } }

/-- Go `AddNewElement` (lines 163-165). -/
def AddNewElement (m : GenericMessage) (title subtitle itemURL imageURL : GoString)
    (buttons : List Button) : Except GoPanic GenericMessage :=
  AddElement m (newElement title subtitle itemURL imageURL buttons)

/-- Go `newQuickReply` (lines 203-210). -/
def newQuickReply (contentType : ContentType) (title payload imgURL : GoString) : QuickReply :=
  { ContentType := contentType
    Title := title
    Payload := payload
    ImageURL := imgURL }

/-- Go `NewQuickReply` (lines 199-201). -/
def NewQuickReply {Messenger : Type} (_msng : Messenger) (contentType : ContentType)
    (title payload imgURL : GoString) : QuickReply :=
  newQuickReply contentType title payload imgURL

/-- Go `AddQuickReply` (lines 195-197). -/
def AddQuickReply (m : QuickReplyMessage) (qr : QuickReply) : QuickReplyMessage :=
  { m with Message := { m.Message with QuickReplies := m.Message.QuickReplies ++ [qr] } }

/-- Go `AddNewQuickReply` (lines 191-193). -/
def AddNewQuickReply (m : QuickReplyMessage) (contentType : ContentType)
    (title payload imgURL : GoString) : QuickReplyMessage :=
  AddQuickReply m (newQuickReply contentType title payload imgURL)

/-- Go `NewWebURLButton` (lines 213-219); `Payload` keeps its zero value. -/
def NewWebURLButton {Messenger : Type} (_msng : Messenger) (title URL : GoString) : Button :=
  { Type_ := ButtonTypeWebURL
    Title := title
    URL := URL
    Payload := "" }

/-- Go `NewPostbackButton` (lines 222-228); `URL` keeps its zero value. -/
def NewPostbackButton {Messenger : Type} (_msng : Messenger) (title payload : GoString) : Button :=
  { Type_ := ButtonTypePostback
    Title := title
    Payload := payload
    URL := "" }

/-- Go `AddWebURLButton` (lines 231-238). -/
def AddWebURLButton (e : Element) (title URL : GoString) : Element :=
  let b : Button :=
    { Type_ := ButtonTypeWebURL
      Title := title
      URL := URL
      Payload := "" }
  { e with Buttons := e.Buttons ++ [b] }

/-- Go `AddPostbackButton` (lines 241-248). -/
def AddPostbackButton (e : Element) (title payload : GoString) : Element :=
  let b : Button :=
    { Type_ := ButtonTypePostback
      Title := title
      Payload := payload
      URL := "" }
  { e with Buttons := e.Buttons ++ [b] }

/-! ## Serialized form (struct tags, lines 58-127)

`encoding/json` turns a struct into a JSON object with one member per field, in
declaration order, named by the field's tag. The rules used by the tags of this
file are: a field tagged `omitempty` is left out when it is an empty string, a
slice of length zero or a nil pointer; `omitempty` has no effect on a field of
struct kind; the option `string` writes an integer as a JSON string holding its
decimal form. A field of string kind is written as a JSON string whose value is the
field's text with every byte that is not part of well-formed UTF-8 replaced by
U+FFFD (`coerceUTF8`).
-/

/-- JSON values; the members of an object are kept in emission order, and a string
value is given by its UTF-8 bytes. -/
inductive JSON where
  | null
  | bool (b : Bool)
  | number (n : Int)
  | string (s : GoString)
  | array (items : List JSON)
  | object (members : List (String × JSON))

namespace JSON

/-- The member of an object stored under `key` (the first one), if any. -/
def get? : JSON → String → Option JSON
  | .object members, key => members.lookup key
  | _, _ => none

/-- The member names of an object, in emission order. -/
def keys : JSON → List String
  | .object members => members.map Prod.fst
  | _ => []

/-- Follows a chain of member names down nested objects. -/
def path : JSON → List String → Option JSON
  | j, [] => some j
  | j, key :: rest =>
    match j.get? key with
    | none => none
    | some child => path child rest

end JSON

/-- The byte `'0' + d` of a decimal digit `d`. -/
def digitChar (d : Nat) : Char := Char.ofNat (48 + d)

/-- Decimal digits of `u`, most significant first; `fuel` bounds the number of digits. -/
def formatUintAux : Nat → Nat → List Char
  | 0, _ => []
  | fuel + 1, u =>
    if u < 10 then [digitChar u]
    else formatUintAux fuel (u / 10) ++ [digitChar (u % 10)]

/-- Decimal form of an unsigned value (`"0"` for zero, no leading zeros otherwise). -/
def formatUint (u : Nat) : List Char := formatUintAux (u + 1) u

/-- Go `strconv.FormatInt(i, 10)`: a minus sign for negative values, then the digits of
the magnitude. -/
def FormatInt (i : Int) : String :=
  if i < 0 then String.mk ('-' :: formatUint i.natAbs) else String.mk (formatUint i.natAbs)

/-- The value of a decimal digit character, `none` for any other character. -/
def digitValue (c : Char) : Option Nat :=
  if 48 ≤ c.toNat ∧ c.toNat ≤ 57 then some (c.toNat - 48) else none

/-- Reads digits left to right starting from the value `acc` read so far. -/
def readDigits : List Char → Nat → Option Nat
  | [], acc => some acc
  | c :: cs, acc =>
    match digitValue c with
    | none => none
    | some d => readDigits cs (acc * 10 + d)

/-- The integer a decimal numeral denotes: an optional minus sign followed by one or
more digits; `none` when the text is not such a numeral. -/
def decimalValue (s : String) : Option Int :=
  match s.data with
  | [] => none
  | c :: cs =>
    if c = '-' then
      if cs = [] then none else (readDigits cs 0).map (fun (n : Nat) => -(n : Int))
    else (readDigits (c :: cs) 0).map (fun (n : Nat) => (n : Int))

/-- A field without `omitempty`: always emitted. -/
def always (key : String) (v : JSON) : List (String × JSON) := [(key, v)]

/-- The JSON string written for a value of string kind. -/
def stringValue (s : GoString) : JSON := .string (coerceUTF8 s)

/-- An `omitempty` field of string kind: left out when the string is empty. -/
def omitemptyString (key : String) (s : GoString) : List (String × JSON) :=
  if s = "" then [] else [(key, stringValue s)]

/-- An `omitempty` field of slice kind: left out when the slice has length zero. -/
def omitemptySlice {α : Type} (key : String) (enc : α → JSON) (xs : List α) :
    List (String × JSON) :=
  if xs.length = 0 then [] else [(key, .array (xs.map enc))]

/-- An `omitempty` field of pointer kind: left out when the pointer is nil. -/
def omitemptyPtr {α : Type} (key : String) (enc : α → JSON) (p : Option α) :
    List (String × JSON) :=
  match p with
  | none => []
  | some a => [(key, enc a)]

/-- An `omitempty` field of struct kind: a struct value is never empty, so the field is
always emitted. -/
def omitemptyStruct (key : String) (v : JSON) : List (String × JSON) := [(key, v)]

/-- An `int64` field with the `string` option: a JSON string with the decimal form. -/
def quotedInt64 (key : String) (i : Int) : List (String × JSON) :=
  [(key, .string (GoString.ofString (FormatInt i)))]

/-- Struct `recipient`, tag `id,string`. -/
def marshalRecipient (r : recipient) : JSON :=
  .object (quotedInt64 "id" r.ID)

/-- Struct `textMessageContent`, tag `text,omitempty`. -/
def marshalTextMessageContent (c : textMessageContent) : JSON :=
  .object (omitemptyString "text" c.Text)

/-- Struct `QuickReply`. -/
def marshalQuickReply (q : QuickReply) : JSON :=
  .object (always "content_type" (stringValue q.ContentType)
    ++ omitemptyString "title" q.Title
    ++ omitemptyString "payload" q.Payload
    ++ omitemptyString "image_url" q.ImageURL)

/-- Struct `quickReplyContent`. -/
def marshalQuickReplyContent (c : quickReplyContent) : JSON :=
  .object (omitemptyString "text" c.Text
    ++ omitemptySlice "quick_replies" marshalQuickReply c.QuickReplies)

/-- Struct `Button`. -/
def marshalButton (b : Button) : JSON :=
  .object (always "type" (stringValue b.Type_)
    ++ omitemptyString "url" b.URL
    ++ always "title" (stringValue b.Title)
    ++ omitemptyString "payload" b.Payload)

/-- Struct `Element`. -/
def marshalElement (e : Element) : JSON :=
  .object (always "title" (stringValue e.Title)
    ++ omitemptyString "subtitle" e.Subtitle
    ++ omitemptyString "item_url" e.ItemURL
    ++ omitemptyString "image_url" e.ImageURL
    ++ omitemptySlice "buttons" marshalButton e.Buttons)

/-- Struct `payload`. -/
def marshalPayload (p : payload) : JSON :=
  .object (omitemptyString "template_type" p.TemplateType
    ++ omitemptySlice "elements" marshalElement p.Elements)

/-- Struct `attachment`; `Payload` has struct kind. -/
def marshalAttachment (a : attachment) : JSON :=
  .object (omitemptyString "type" a.Type_
    ++ omitemptyStruct "payload" (marshalPayload a.Payload))

/-- Struct `genericMessageContent`; `Attachment` is a pointer. -/
def marshalGenericMessageContent (c : genericMessageContent) : JSON :=
  .object (omitemptyPtr "attachment" marshalAttachment c.Attachment)

/-- Struct `TextMessage`. -/
def marshalTextMessage (m : TextMessage) : JSON :=
  .object (always "message" (marshalTextMessageContent m.Message)
    ++ always "recipient" (marshalRecipient m.Recipient)
    ++ omitemptyString "notification_type" m.NotificationType)

/-- Struct `QuickReplyMessage`. -/
def marshalQuickReplyMessage (m : QuickReplyMessage) : JSON :=
  .object (always "message" (marshalQuickReplyContent m.Message)
    ++ always "recipient" (marshalRecipient m.Recipient)
    ++ omitemptyString "notification_type" m.NotificationType)

/-- Struct `GenericMessage`. -/
def marshalGenericMessage (m : GenericMessage) : JSON :=
  .object (always "message" (marshalGenericMessageContent m.Message)
    ++ always "recipient" (marshalRecipient m.Recipient)
    ++ omitemptyString "notification_type" m.NotificationType)

/-- Serialization of a value of interface type `Message`. -/
def Marshal : Message → JSON
  | .text m => marshalTextMessage m
  | .generic m => marshalGenericMessage m
  | .quickReply m => marshalQuickReplyMessage m

/-! ## Sequences of calls -/

/-- Go `AddElement(e1); ...; AddElement(en)` on the same message, in that order. -/
def addElements (m : GenericMessage) : List Element → Except GoPanic GenericMessage
  | [] => .ok m
  | e :: es =>
    match AddElement m e with
    | .error p => .error p
    | .ok m' => addElements m' es

/-- One call of an append operation of `GenericMessage`. -/
inductive GenericCall where
  | addElement (e : Element)
  | addNewElement (title subtitle itemURL imageURL : GoString) (buttons : List Button)
  deriving DecidableEq, Repr

/-- The element a call appends. -/
def GenericCall.element : GenericCall → Element
  | .addElement e => e
  | .addNewElement title subtitle itemURL imageURL buttons =>
    newElement title subtitle itemURL imageURL buttons

/-- Performs one call. -/
def GenericCall.run (m : GenericMessage) : GenericCall → Except GoPanic GenericMessage
  | .addElement e => AddElement m e
  | .addNewElement title subtitle itemURL imageURL buttons =>
    AddNewElement m title subtitle itemURL imageURL buttons

/-- Performs a sequence of calls in order; stops at the first panic. -/
def runCalls (m : GenericMessage) : List GenericCall → Except GoPanic GenericMessage
  | [] => .ok m
  | c :: cs =>
    match c.run m with
    | .error p => .error p
    | .ok m' => runCalls m' cs

/-- Go `AddQuickReply(q1); ...; AddQuickReply(qn)` on the same message, in that order. -/
def addQuickReplies (m : QuickReplyMessage) : List QuickReply → QuickReplyMessage
  | [] => m
  | q :: qs => addQuickReplies (AddQuickReply m q) qs

/-- One call of an append operation of `QuickReplyMessage`. -/
inductive QuickReplyCall where
  | addQuickReply (qr : QuickReply)
  | addNewQuickReply (contentType : ContentType) (title payload imgURL : GoString)
  deriving DecidableEq, Repr

/-- Performs one call. -/
def QuickReplyCall.run (m : QuickReplyMessage) : QuickReplyCall → QuickReplyMessage
  | .addQuickReply qr => AddQuickReply m qr
  | .addNewQuickReply contentType title payload imgURL =>
    AddNewQuickReply m contentType title payload imgURL

/-- Performs a sequence of calls in order. -/
def runQuickReplyCalls (m : QuickReplyMessage) : List QuickReplyCall → QuickReplyMessage
  | [] => m
  | c :: cs => runQuickReplyCalls (c.run m) cs

/-! ## Deserialized form

`encoding/json` fills a zero-valued struct from a JSON object: a member named by a
field's tag sets that field, a field without a member keeps its zero value, and members
that name no field are skipped. The decoder below is stated for the objects the encoder
above emits (member names distinct and spelled as in the tags, no `null` members); a
member of the wrong JSON type, or a non-object where a struct is expected, is a decoding
error (`none`).
-/

/-- The digits of an integer numeral, without its minus sign. -/
def integerDigits : List Char → List Char
  | [] => []
  | c :: cs => if c = '-' then cs else c :: cs

/-- Tells whether a digit sequence of two or more digits starts with `0`; such a
sequence is not a JSON number. -/
def hasLeadingZero : List Char → Bool
  | c :: _ :: _ => decide (c = '0')
  | _ => false

/-- The character whose code is the byte `b`; for a byte below `0x80` this is the ASCII
character it encodes. -/
def byteChar (b : Fin 256) : Char := Char.ofNat b.val

/-- Decoding of the content of a quoted `int64`: a JSON integer literal (optional minus
sign, digits, no leading zero) whose value lies in the range of `int64`. The content is
read byte by byte, so a byte that is not an ASCII digit or the leading minus sign makes
it fail. -/
def parseInt64 (s : GoString) : Option Int :=
  if hasLeadingZero (integerDigits (s.map byteChar)) then none
  else
    match decimalValue (String.mk (s.map byteChar)) with
    | none => none
    | some i => if isInt64 i then some i else none

/-- A field of string kind: the zero value `""` without a member, the member's text for
a JSON string. -/
def stringMember (j : JSON) (key : String) : Option GoString :=
  match j.get? key with
  | none => some ""
  | some (.string s) => some s
  | some _ => none

/-- Decodes the items of a JSON array one by one, in order. -/
def decodeItems {α : Type} (dec : JSON → Option α) : List JSON → Option (List α)
  | [] => some []
  | item :: items =>
    match dec item with
    | none => none
    | some a =>
      match decodeItems dec items with
      | none => none
      | some as => some (a :: as)

/-- A field of slice kind: the zero value (nil) without a member, the decoded items for
a JSON array. -/
def sliceMember {α : Type} (dec : JSON → Option α) (j : JSON) (key : String) :
    Option (List α) :=
  match j.get? key with
  | none => some []
  | some (.array items) => decodeItems dec items
  | some _ => none

/-- A field of pointer kind: nil without a member, otherwise a pointer to the decoded
value. -/
def ptrMember {α : Type} (dec : JSON → Option α) (j : JSON) (key : String) :
    Option (Option α) :=
  match j.get? key with
  | none => some none
  | some v =>
    match dec v with
    | none => none
    | some a => some (some a)

/-- A field of struct kind: the zero value `zero` without a member, otherwise the decoded
value. -/
def structMember {α : Type} (dec : JSON → Option α) (zero : α) (j : JSON) (key : String) :
    Option α :=
  match j.get? key with
  | none => some zero
  | some v => dec v

/-- An `int64` field with the `string` option: `0` without a member, the parsed content
for a JSON string. -/
def quotedInt64Member (j : JSON) (key : String) : Option Int :=
  match j.get? key with
  | none => some 0
  | some (.string s) => parseInt64 s
  | some _ => none

/-- Struct `recipient`, tag `id,string`. -/
def unmarshalRecipient : JSON → Option recipient
  | .object members => do
    let id ← quotedInt64Member (.object members) "id"
    pure { ID := id }
  | _ => none

/-- Struct `Button`. -/
def unmarshalButton : JSON → Option Button
  | .object members => do
    let type ← stringMember (.object members) "type"
    let url ← stringMember (.object members) "url"
    let title ← stringMember (.object members) "title"
    let payload ← stringMember (.object members) "payload"
    pure { Type_ := type, URL := url, Title := title, Payload := payload }
  | _ => none

/-- Struct `Element`. -/
def unmarshalElement : JSON → Option Element
  | .object members => do
    let title ← stringMember (.object members) "title"
    let subtitle ← stringMember (.object members) "subtitle"
    let itemURL ← stringMember (.object members) "item_url"
    let imageURL ← stringMember (.object members) "image_url"
    let buttons ← sliceMember unmarshalButton (.object members) "buttons"
    pure { Title := title, Subtitle := subtitle, ItemURL := itemURL, ImageURL := imageURL,
           Buttons := buttons }
  | _ => none

/-- Struct `payload`. -/
def unmarshalPayload : JSON → Option payload
  | .object members => do
    let templateType ← stringMember (.object members) "template_type"
    let elements ← sliceMember unmarshalElement (.object members) "elements"
    pure { TemplateType := templateType, Elements := elements }
  | _ => none

/-- Struct `attachment`. -/
def unmarshalAttachment : JSON → Option attachment
  | .object members => do
    let type ← stringMember (.object members) "type"
    let p ← structMember unmarshalPayload { TemplateType := "", Elements := [] }
      (.object members) "payload"
    pure { Type_ := type, Payload := p }
  | _ => none

/-- Struct `genericMessageContent`. -/
def unmarshalGenericMessageContent : JSON → Option genericMessageContent
  | .object members => do
    let a ← ptrMember unmarshalAttachment (.object members) "attachment"
    pure { Attachment := a }
  | _ => none

/-- Struct `GenericMessage`: `json.Unmarshal` into a zero-valued `GenericMessage`. -/
def unmarshalGenericMessage : JSON → Option GenericMessage
  | .object members => do
    let message ← structMember unmarshalGenericMessageContent { Attachment := none }
      (.object members) "message"
    let rcp ← structMember unmarshalRecipient { ID := 0 } (.object members) "recipient"
    let nt ← stringMember (.object members) "notification_type"
    pure { Message := message, Recipient := rcp, NotificationType := nt }
  | _ => none

/-- Tells whether all four strings of a button are valid UTF-8. -/
def Button.validUTF8 (b : Button) : Bool :=
  ValidString b.Type_ && ValidString b.URL && ValidString b.Title && ValidString b.Payload

/-- Tells whether the four strings of an element and the strings of all its buttons are
valid UTF-8. -/
def Element.validUTF8 (e : Element) : Bool :=
  ValidString e.Title && ValidString e.Subtitle && ValidString e.ItemURL &&
    ValidString e.ImageURL && e.Buttons.all Button.validUTF8

/-! ## Go strings and UTF-8 -/

theorem GoString.encodeRune_ne_nil (c : Char) : GoString.encodeRune c ≠ [] := by
  unfold GoString.encodeRune
  split_ifs <;> simp

theorem GoString.ofString_eq_nil_iff (s : String) : GoString.ofString s = [] ↔ s = "" := by
  obtain ⟨cs⟩ := s
  cases cs with
  | nil => simp [GoString.ofString]
  | cons c cs =>
    have h := GoString.encodeRune_ne_nil c
    simp [GoString.ofString, String.ext_iff, h]

theorem coerceUTF8Aux_of_valid (fuel : Nat) (s : GoString) (hlen : s.length ≤ fuel)
    (h : ValidStringAux fuel s = true) : coerceUTF8Aux fuel s = s := by
  induction fuel generalizing s with
  | zero =>
    cases s with
    | nil => rfl
    | cons b rest => simp at hlen
  | succ fuel ih =>
    cases s with
    | nil => rfl
    | cons b rest =>
      unfold ValidStringAux at h
      unfold coerceUTF8Aux
      cases hw : runeWidth (b :: rest) with
      | zero => simp [hw] at h
      | succ n =>
        simp only [hw] at h
        have hl : (rest.drop n).length ≤ fuel := by
          simp only [List.length_drop, List.length_cons] at hlen ⊢
          omega
        simp only [ih _ hl h, List.cons_append, List.take_append_drop]

theorem coerceUTF8_of_valid (s : GoString) (h : ValidString s = true) : coerceUTF8 s = s :=
  coerceUTF8Aux_of_valid s.length s (Nat.le_refl _) h

theorem coerceUTF8_eq_nil_iff (s : GoString) : coerceUTF8 s = [] ↔ s = [] := by
  cases s with
  | nil => simp [coerceUTF8, coerceUTF8Aux]
  | cons b rest =>
    simp only [coerceUTF8, List.length_cons, coerceUTF8Aux, reduceCtorEq, iff_false]
    cases runeWidth (b :: rest) <;> simp [replacementChar]

theorem GoString.ofString_empty : GoString.ofString "" = [] := rfl

theorem coerceUTF8_template :
    coerceUTF8 (GoString.ofString "template") = GoString.ofString "template" := by decide

theorem coerceUTF8_generic :
    coerceUTF8 (GoString.ofString "generic") = GoString.ofString "generic" := by decide

theorem coerceUTF8_web_url :
    coerceUTF8 (GoString.ofString "web_url") = GoString.ofString "web_url" := by decide

theorem coerceUTF8_postback :
    coerceUTF8 (GoString.ofString "postback") = GoString.ofString "postback" := by decide

theorem coerceUTF8_notification_types :
    coerceUTF8 NotificationTypeRegular = NotificationTypeRegular ∧
    coerceUTF8 NotificationTypeSilentPush = NotificationTypeSilentPush ∧
    coerceUTF8 NotificationTypeNoPush = NotificationTypeNoPush := by decide

/-! ## Decimal form -/

theorem digitValue_digitChar (d : Nat) (h : d < 10) : digitValue (digitChar d) = some d := by
  interval_cases d <;> decide

theorem digitChar_ne_minus (d : Nat) (h : d < 10) : digitChar d ≠ '-' := by
  interval_cases d <;> decide

theorem readDigits_append (xs ys : List Char) (acc : Nat) :
    readDigits (xs ++ ys) acc = (readDigits xs acc).bind (readDigits ys) := by
  induction xs generalizing acc with
  | nil => simp [readDigits]
  | cons c cs ih =>
    simp only [List.cons_append, readDigits]
    cases digitValue c with
    | none => simp
    | some d => simp [ih]

theorem readDigits_formatUintAux (fuel u : Nat) (h : u < fuel) :
    readDigits (formatUintAux fuel u) 0 = some u := by
  induction fuel generalizing u with
  | zero => omega
  | succ fuel ih =>
    unfold formatUintAux
    split
    · next hlt => simp [readDigits, digitValue_digitChar u hlt]
    · next hge =>
      have hdiv : u / 10 < fuel := by omega
      have hmod : u % 10 < 10 := Nat.mod_lt _ (by decide)
      rw [readDigits_append, ih _ hdiv]
      simp only [Option.some_bind, readDigits, digitValue_digitChar _ hmod]
      congr 1
      omega

theorem formatUintAux_head (fuel u : Nat) :
    ∃ d cs, d < 10 ∧ formatUintAux (fuel + 1) u = digitChar d :: cs := by
  induction fuel generalizing u with
  | zero =>
    unfold formatUintAux
    split
    · next hlt => exact ⟨u, [], hlt, rfl⟩
    · exact ⟨u % 10, [], Nat.mod_lt _ (by decide), by simp [formatUintAux]⟩
  | succ fuel ih =>
    unfold formatUintAux
    split
    · next hlt => exact ⟨u, [], hlt, rfl⟩
    · obtain ⟨d, cs, hd, hcs⟩ := ih (u / 10)
      exact ⟨d, cs ++ [digitChar (u % 10)], hd, by rw [hcs]; rfl⟩

theorem decimalValue_FormatInt (i : Int) : decimalValue (FormatInt i) = some i := by
  obtain ⟨d, cs, hd, hcs⟩ := formatUintAux_head i.natAbs i.natAbs
  have hread := readDigits_formatUintAux (i.natAbs + 1) i.natAbs (Nat.lt_succ_self _)
  by_cases hneg : i < 0
  · simp only [FormatInt, hneg, if_true, decimalValue, formatUint]
    rw [hcs] at hread
    have hne : digitChar d :: cs ≠ [] := List.cons_ne_nil _ _
    have hval : -(i.natAbs : Int) = i := by omega
    simp only [hne, if_false, hcs, hread, Option.map_some', hval]
  · simp only [FormatInt, hneg, if_false, decimalValue, formatUint, hcs]
    rw [hcs] at hread
    have hval : (i.natAbs : Int) = i := by omega
    simp only [digitChar_ne_minus d hd, if_false, hread, Option.map_some', hval]

/-! ## Appending elements -/

theorem AddElement_some (m : GenericMessage) (a : attachment) (e : Element)
    (h : m.Message.Attachment = some a) :
    AddElement m e = .ok
      { Message :=
          { Attachment := some
              { Type_ := a.Type_
                Payload :=
                  { TemplateType := a.Payload.TemplateType
                    Elements := a.Payload.Elements ++ [e] } } }
        Recipient := m.Recipient
        NotificationType := m.NotificationType } := by
  simp [AddElement, h]

theorem AddElement_none (m : GenericMessage) (e : Element) (h : m.Message.Attachment = none) :
    AddElement m e = .error .nilPointerDereference := by
  simp [AddElement, h]

theorem addElements_some (es : List Element) (m : GenericMessage) (a : attachment)
    (h : m.Message.Attachment = some a) :
    addElements m es = .ok
      { Message :=
          { Attachment := some
              { Type_ := a.Type_
                Payload :=
                  { TemplateType := a.Payload.TemplateType
                    Elements := a.Payload.Elements ++ es } } }
        Recipient := m.Recipient
        NotificationType := m.NotificationType } := by
  induction es generalizing m a with
  | nil =>
    obtain ⟨⟨att⟩, rcp, nt⟩ := m
    simp only at h
    subst h
    simp [addElements]
  | cons e es ih =>
    simp only [addElements, AddElement_some m a e h]
    rw [ih _ _ rfl]
    simp

theorem GenericCall.run_eq (m : GenericMessage) (c : GenericCall) :
    c.run m = AddElement m c.element := by
  cases c <;> rfl

theorem runCalls_eq_addElements (cs : List GenericCall) (m : GenericMessage) :
    runCalls m cs = addElements m (cs.map GenericCall.element) := by
  induction cs generalizing m with
  | nil => rfl
  | cons c cs ih =>
    simp only [runCalls, List.map_cons, addElements, GenericCall.run_eq]
    cases AddElement m c.element with
    | error p => rfl
    | ok m' => exact ih m'

theorem runCalls_NewGenericMessage {Messenger : Type} (msng : Messenger) (r : Int)
    (cs : List GenericCall) :
    runCalls (NewGenericMessage msng r) cs = .ok
      { Message :=
          { Attachment := some
              { Type_ := "template"
                Payload :=
                  { TemplateType := "generic"
                    Elements := cs.map GenericCall.element } } }
        Recipient := { ID := r }
        NotificationType := "" } := by
  rw [runCalls_eq_addElements, addElements_some _ _ _ rfl]
  simp [NewGenericMessage]

/-! ## Claims -/

/-- C1: starting from `NewGenericMessage(r)`, the calls `AddElement(e1)`, ...,
`AddElement(en)` in that order all complete and leave
`Message.Attachment.Payload.Elements` equal to `[e1, ..., en]`, of length `n`. -/
theorem addElements_NewGenericMessage_elements {Messenger : Type} (msng : Messenger) (r : Int)
    (es : List Element) :
    ∃ m' a, addElements (NewGenericMessage msng r) es = .ok m' ∧
      m'.Message.Attachment = some a ∧
      a.Payload.Elements = es ∧
      a.Payload.Elements.length = es.length := by
  refine ⟨_, _, addElements_some es _ _ rfl, rfl, ?_, ?_⟩ <;> simp [NewGenericMessage]

/-- C2: after any finite sequence of `AddElement` / `AddNewElement` calls on
`NewGenericMessage(r)` the attachment `Type` is `"template"` and the payload
`TemplateType` is `"generic"`, the serialized message carries
`"type":"template"` and `"template_type":"generic"`, and a single call on any message
either panics (nil attachment) or leaves both values as they were. -/
theorem runCalls_template_generic {Messenger : Type} (msng : Messenger) (r : Int)
    (cs : List GenericCall) :
    (∃ m' a, runCalls (NewGenericMessage msng r) cs = .ok m' ∧
      m'.Message.Attachment = some a ∧
      a.Type_ = "template" ∧
      a.Payload.TemplateType = "generic" ∧
      (marshalGenericMessage m').path ["message", "attachment", "type"]
        = some (.string "template") ∧
      (marshalGenericMessage m').path ["message", "attachment", "payload", "template_type"]
        = some (.string "generic")) ∧
    (∀ (m : GenericMessage) (c : GenericCall),
      match c.run m with
      | .ok m' =>
        m'.Message.Attachment.map (fun a => (a.Type_, a.Payload.TemplateType))
          = m.Message.Attachment.map (fun a => (a.Type_, a.Payload.TemplateType))
        ∧ m.Message.Attachment ≠ none
      | .error _ => m.Message.Attachment = none) := by
  refine ⟨⟨_, _, runCalls_NewGenericMessage msng r cs, rfl, rfl, rfl, ?_, ?_⟩, ?_⟩
  · simp [marshalGenericMessage, marshalGenericMessageContent, marshalAttachment,
      JSON.path, JSON.get?, always, omitemptyPtr, omitemptyString, stringValue, List.lookup,
      GoString.ofString_eq_nil_iff, coerceUTF8_template]
  · simp [marshalGenericMessage, marshalGenericMessageContent, marshalAttachment,
      marshalPayload, JSON.path, JSON.get?, always, omitemptyPtr, omitemptyString,
      omitemptyStruct, stringValue, List.lookup, GoString.ofString_eq_nil_iff,
      coerceUTF8_template, coerceUTF8_generic]
  · intro m c
    rw [GenericCall.run_eq]
    cases hatt : m.Message.Attachment with
    | none => simp [AddElement_none m _ hatt]
    | some a => simp [AddElement_some m a _ hatt]

/-- C3: for every 64-bit signed recipient id `r`, the serialized `NewTextMessage(r, "hi")`
has at `recipient.id` a JSON string holding the decimal form of `r` (a numeral whose
value is `r`), not a JSON number; the same holds for the recipient of
`NewQuickReplyMessage` and of `NewGenericMessage`. -/
theorem recipient_id_is_decimal_string {Messenger : Type} (msng : Messenger) (r : Int)
    (_hr : isInt64 r) (text : GoString) :
    (marshalTextMessage (NewTextMessage msng r "hi")).path ["recipient", "id"]
      = some (.string (FormatInt r)) ∧
    (marshalQuickReplyMessage (NewQuickReplyMessage msng r text)).path ["recipient", "id"]
      = some (.string (FormatInt r)) ∧
    (marshalGenericMessage (NewGenericMessage msng r)).path ["recipient", "id"]
      = some (.string (FormatInt r)) ∧
    decimalValue (FormatInt r) = some r ∧
    (∀ n : Int,
      (marshalTextMessage (NewTextMessage msng r "hi")).path ["recipient", "id"]
        ≠ some (.number n) ∧
      (marshalQuickReplyMessage (NewQuickReplyMessage msng r text)).path ["recipient", "id"]
        ≠ some (.number n) ∧
      (marshalGenericMessage (NewGenericMessage msng r)).path ["recipient", "id"]
        ≠ some (.number n)) := by
  have h1 : (marshalTextMessage (NewTextMessage msng r "hi")).path ["recipient", "id"]
      = some (.string (FormatInt r)) := by
    simp [marshalTextMessage, marshalRecipient, NewTextMessage, JSON.path, JSON.get?, always,
      quotedInt64, omitemptyString, List.lookup]
  have h2 : (marshalQuickReplyMessage (NewQuickReplyMessage msng r text)).path
      ["recipient", "id"] = some (.string (FormatInt r)) := by
    simp [marshalQuickReplyMessage, marshalRecipient, NewQuickReplyMessage, JSON.path,
      JSON.get?, always, quotedInt64, omitemptyString, List.lookup]
  have h3 : (marshalGenericMessage (NewGenericMessage msng r)).path ["recipient", "id"]
      = some (.string (FormatInt r)) := by
    simp [marshalGenericMessage, marshalRecipient, NewGenericMessage, JSON.path, JSON.get?,
      always, quotedInt64, omitemptyString, List.lookup]
  refine ⟨h1, h2, h3, decimalValue_FormatInt r, fun n => ?_⟩
  rw [h1, h2, h3]
  simp

/-- Instance at the least `int64` value, `-9223372036854775808`. -/
theorem recipient_id_is_decimal_string_witness :
    isInt64 (-9223372036854775808) ∧
    ((marshalTextMessage (NewTextMessage () (-9223372036854775808) "hi")).path
        ["recipient", "id"] = some (.string "-9223372036854775808") ∧
      (marshalQuickReplyMessage (NewQuickReplyMessage () (-9223372036854775808) "hello")).path
        ["recipient", "id"] = some (.string "-9223372036854775808") ∧
      (marshalGenericMessage (NewGenericMessage () (-9223372036854775808))).path
        ["recipient", "id"] = some (.string "-9223372036854775808") ∧
      decimalValue "-9223372036854775808" = some (-9223372036854775808) ∧
      (∀ n : Int,
        (marshalTextMessage (NewTextMessage () (-9223372036854775808) "hi")).path
          ["recipient", "id"] ≠ some (.number n) ∧
        (marshalQuickReplyMessage
          (NewQuickReplyMessage () (-9223372036854775808) "hello")).path
          ["recipient", "id"] ≠ some (.number n) ∧
        (marshalGenericMessage (NewGenericMessage () (-9223372036854775808))).path
          ["recipient", "id"] ≠ some (.number n))) :=
  ⟨by decide, recipient_id_is_decimal_string () (-9223372036854775808) (by decide) "hello"⟩

/-- C4, as amended: for every title `t` and non-empty URL `u`, `NewWebURLButton(t, u)`
has `Type` `"web_url"`, `Title` `t`, `URL` `u` and empty `Payload`; its serialized
object has `"type":"web_url"`, has the key `"url"`, whose value is `u` with every byte
that is not well-formed UTF-8 replaced by U+FFFD and hence `u` itself when `u` is valid
UTF-8, and has no `"payload"` key. -/
theorem NewWebURLButton_serialized {Messenger : Type} (msng : Messenger) (t u : GoString)
    (hu : u ≠ "") :
    NewWebURLButton msng t u = { Type_ := "web_url", URL := u, Title := t, Payload := "" } ∧
    marshalButton (NewWebURLButton msng t u)
      = .object [("type", .string "web_url"), ("url", .string (coerceUTF8 u)),
          ("title", .string (coerceUTF8 t))] ∧
    (marshalButton (NewWebURLButton msng t u)).get? "type" = some (.string "web_url") ∧
    "url" ∈ (marshalButton (NewWebURLButton msng t u)).keys ∧
    (marshalButton (NewWebURLButton msng t u)).get? "url" = some (.string (coerceUTF8 u)) ∧
    (ValidString u = true →
      (marshalButton (NewWebURLButton msng t u)).get? "url" = some (.string u)) ∧
    (marshalButton (NewWebURLButton msng t u)).get? "payload" = none ∧
    "payload" ∉ (marshalButton (NewWebURLButton msng t u)).keys := by
  have hu' : u ≠ [] := by simpa [GoString.ofString_empty] using hu
  have hm : marshalButton (NewWebURLButton msng t u)
      = .object [("type", .string "web_url"), ("url", .string (coerceUTF8 u)),
          ("title", .string (coerceUTF8 t))] := by
    simp [marshalButton, NewWebURLButton, ButtonTypeWebURL, always, omitemptyString,
      stringValue, GoString.ofString_empty, coerceUTF8_web_url, hu']
  refine ⟨rfl, hm, ?_, ?_, ?_, ?_, ?_, ?_⟩
  · rw [hm]; simp [JSON.get?, List.lookup]
  · rw [hm]; simp [JSON.keys]
  · rw [hm]; simp [JSON.get?, List.lookup]
  · intro hv
    rw [hm, coerceUTF8_of_valid u hv]; simp [JSON.get?, List.lookup]
  · rw [hm]; simp [JSON.get?, List.lookup]
  · rw [hm]; simp [JSON.keys]

/-- Instance: the button `NewWebURLButton("Go", "http://x")`. -/
theorem NewWebURLButton_serialized_witness :
    ("http://x" : GoString) ≠ "" ∧
    (NewWebURLButton () "Go" "http://x"
        = { Type_ := "web_url", URL := "http://x", Title := "Go", Payload := "" } ∧
      marshalButton (NewWebURLButton () "Go" "http://x")
        = .object [("type", .string "web_url"), ("url", .string (coerceUTF8 "http://x")),
            ("title", .string (coerceUTF8 "Go"))] ∧
      (marshalButton (NewWebURLButton () "Go" "http://x")).get? "type"
        = some (.string "web_url") ∧
      "url" ∈ (marshalButton (NewWebURLButton () "Go" "http://x")).keys ∧
      (marshalButton (NewWebURLButton () "Go" "http://x")).get? "url"
        = some (.string (coerceUTF8 "http://x")) ∧
      (ValidString "http://x" = true →
        (marshalButton (NewWebURLButton () "Go" "http://x")).get? "url"
          = some (.string "http://x")) ∧
      (marshalButton (NewWebURLButton () "Go" "http://x")).get? "payload" = none ∧
      "payload" ∉ (marshalButton (NewWebURLButton () "Go" "http://x")).keys) :=
  ⟨by decide, NewWebURLButton_serialized () "Go" "http://x" (by decide)⟩

/-- C4 fails as stated: for the non-empty URL `"a\xffb"` (bytes `61 FF 62`, not valid
UTF-8) the serialized `NewWebURLButton("Go", "a\xffb")` has under `"url"` the value
`"a\ufffdb"` (bytes `61 EF BF BD 62`), not the URL itself. -/
theorem NewWebURLButton_invalid_utf8_url :
    ([0x61, 0xFF, 0x62] : GoString) ≠ "" ∧
    (marshalButton (NewWebURLButton () "Go" [0x61, 0xFF, 0x62])).get? "url"
      = some (.string [0x61, 0xEF, 0xBF, 0xBD, 0x62]) ∧
    (marshalButton (NewWebURLButton () "Go" [0x61, 0xFF, 0x62])).get? "url"
      ≠ some (.string [0x61, 0xFF, 0x62]) := by
  have hc : coerceUTF8 [0x61, 0xFF, 0x62] = [0x61, 0xEF, 0xBF, 0xBD, 0x62] := by decide
  have hne : ([0x61, 0xEF, 0xBF, 0xBD, 0x62] : GoString) ≠ [0x61, 0xFF, 0x62] := by decide
  have hg : (marshalButton (NewWebURLButton () "Go" [0x61, 0xFF, 0x62])).get? "url"
      = some (.string [0x61, 0xEF, 0xBF, 0xBD, 0x62]) := by
    simp [marshalButton, NewWebURLButton, always, omitemptyString, stringValue, JSON.get?,
      List.lookup, GoString.ofString_empty, hc]
  refine ⟨by decide, hg, ?_⟩
  rw [hg]
  intro h
  injection h with h
  injection h with h
  exact hne h

/-- C5, as amended: for every title `t` and non-empty payload `p`,
`NewPostbackButton(t, p)` has `Type` `"postback"`, `Title` `t`, `Payload` `p` and empty
`URL`; its serialized object has `"type":"postback"`, has the key `"payload"`, whose
value is `p` with every byte that is not well-formed UTF-8 replaced by U+FFFD and hence
`p` itself when `p` is valid UTF-8, and has no `"url"` key. -/
theorem NewPostbackButton_serialized {Messenger : Type} (msng : Messenger) (t p : GoString)
    (hp : p ≠ "") :
    NewPostbackButton msng t p = { Type_ := "postback", URL := "", Title := t, Payload := p } ∧
    marshalButton (NewPostbackButton msng t p)
      = .object [("type", .string "postback"), ("title", .string (coerceUTF8 t)),
          ("payload", .string (coerceUTF8 p))] ∧
    (marshalButton (NewPostbackButton msng t p)).get? "type" = some (.string "postback") ∧
    "payload" ∈ (marshalButton (NewPostbackButton msng t p)).keys ∧
    (marshalButton (NewPostbackButton msng t p)).get? "payload"
      = some (.string (coerceUTF8 p)) ∧
    (ValidString p = true →
      (marshalButton (NewPostbackButton msng t p)).get? "payload" = some (.string p)) ∧
    (marshalButton (NewPostbackButton msng t p)).get? "url" = none ∧
    "url" ∉ (marshalButton (NewPostbackButton msng t p)).keys := by
  have hp' : p ≠ [] := by simpa [GoString.ofString_empty] using hp
  have hm : marshalButton (NewPostbackButton msng t p)
      = .object [("type", .string "postback"), ("title", .string (coerceUTF8 t)),
          ("payload", .string (coerceUTF8 p))] := by
    simp [marshalButton, NewPostbackButton, ButtonTypePostback, always, omitemptyString,
      stringValue, GoString.ofString_empty, coerceUTF8_postback, hp']
  refine ⟨rfl, hm, ?_, ?_, ?_, ?_, ?_, ?_⟩
  · rw [hm]; simp [JSON.get?, List.lookup]
  · rw [hm]; simp [JSON.keys]
  · rw [hm]; simp [JSON.get?, List.lookup]
  · intro hv
    rw [hm, coerceUTF8_of_valid p hv]; simp [JSON.get?, List.lookup]
  · rw [hm]; simp [JSON.get?, List.lookup]
  · rw [hm]; simp [JSON.keys]

/-- Instance: the button `NewPostbackButton("Go", "cb")`. -/
theorem NewPostbackButton_serialized_witness :
    ("cb" : GoString) ≠ "" ∧
    (NewPostbackButton () "Go" "cb"
        = { Type_ := "postback", URL := "", Title := "Go", Payload := "cb" } ∧
      marshalButton (NewPostbackButton () "Go" "cb")
        = .object [("type", .string "postback"), ("title", .string (coerceUTF8 "Go")),
            ("payload", .string (coerceUTF8 "cb"))] ∧
      (marshalButton (NewPostbackButton () "Go" "cb")).get? "type"
        = some (.string "postback") ∧
      "payload" ∈ (marshalButton (NewPostbackButton () "Go" "cb")).keys ∧
      (marshalButton (NewPostbackButton () "Go" "cb")).get? "payload"
        = some (.string (coerceUTF8 "cb")) ∧
      (ValidString "cb" = true →
        (marshalButton (NewPostbackButton () "Go" "cb")).get? "payload"
          = some (.string "cb")) ∧
      (marshalButton (NewPostbackButton () "Go" "cb")).get? "url" = none ∧
      "url" ∉ (marshalButton (NewPostbackButton () "Go" "cb")).keys) :=
  ⟨by decide, NewPostbackButton_serialized () "Go" "cb" (by decide)⟩

/-- C5 fails as stated: for the non-empty payload `"a\xffb"` (bytes `61 FF 62`, not
valid UTF-8) the serialized `NewPostbackButton("Go", "a\xffb")` has under `"payload"`
the value `"a\ufffdb"` (bytes `61 EF BF BD 62`), not the payload itself. -/
theorem NewPostbackButton_invalid_utf8_payload :
    ([0x61, 0xFF, 0x62] : GoString) ≠ "" ∧
    (marshalButton (NewPostbackButton () "Go" [0x61, 0xFF, 0x62])).get? "payload"
      = some (.string [0x61, 0xEF, 0xBF, 0xBD, 0x62]) ∧
    (marshalButton (NewPostbackButton () "Go" [0x61, 0xFF, 0x62])).get? "payload"
      ≠ some (.string [0x61, 0xFF, 0x62]) := by
  have hc : coerceUTF8 [0x61, 0xFF, 0x62] = [0x61, 0xEF, 0xBF, 0xBD, 0x62] := by decide
  have hne : ([0x61, 0xEF, 0xBF, 0xBD, 0x62] : GoString) ≠ [0x61, 0xFF, 0x62] := by decide
  have hg : (marshalButton (NewPostbackButton () "Go" [0x61, 0xFF, 0x62])).get? "payload"
      = some (.string [0x61, 0xEF, 0xBF, 0xBD, 0x62]) := by
    simp [marshalButton, NewPostbackButton, always, omitemptyString, stringValue, JSON.get?,
      List.lookup, GoString.ofString_empty, hc]
  refine ⟨by decide, hg, ?_⟩
  rw [hg]
  intro h
  injection h with h
  injection h with h
  exact hne h

/-- C6, as amended: for every recipient id `r`, the serialized `NewTextMessage(r, "")`
has a `"message"` object without any `"text"` member, and for every non-empty `s` the
serialized `NewTextMessage(r, s)` has `"text"`, whose value is `s` with every byte that
is not well-formed UTF-8 replaced by U+FFFD and hence `s` itself when `s` is valid
UTF-8. -/
theorem NewTextMessage_text_omitted_when_empty {Messenger : Type} (msng : Messenger) (r : Int)
    (s : GoString) (hs : s ≠ "") :
    (marshalTextMessage (NewTextMessage msng r "")).get? "message" = some (.object []) ∧
    (marshalTextMessage (NewTextMessage msng r "")).path ["message", "text"] = none ∧
    (marshalTextMessage (NewTextMessage msng r s)).get? "message"
      = some (.object [("text", .string (coerceUTF8 s))]) ∧
    (marshalTextMessage (NewTextMessage msng r s)).path ["message", "text"]
      = some (.string (coerceUTF8 s)) ∧
    (ValidString s = true →
      (marshalTextMessage (NewTextMessage msng r s)).path ["message", "text"]
        = some (.string s)) := by
  have hs' : s ≠ [] := by simpa [GoString.ofString_empty] using hs
  have hp : (marshalTextMessage (NewTextMessage msng r s)).path ["message", "text"]
      = some (.string (coerceUTF8 s)) := by
    simp [marshalTextMessage, marshalTextMessageContent, NewTextMessage, JSON.path, JSON.get?,
      always, omitemptyString, stringValue, List.lookup, GoString.ofString_empty, hs']
  refine ⟨?_, ?_, ?_, hp, ?_⟩
  · simp [marshalTextMessage, marshalTextMessageContent, NewTextMessage, JSON.get?,
      always, omitemptyString, List.lookup]
  · simp [marshalTextMessage, marshalTextMessageContent, NewTextMessage, JSON.path, JSON.get?,
      always, omitemptyString, List.lookup]
  · simp [marshalTextMessage, marshalTextMessageContent, NewTextMessage, JSON.get?,
      always, omitemptyString, stringValue, List.lookup, GoString.ofString_empty, hs']
  · intro hv
    rw [hp, coerceUTF8_of_valid s hv]

/-- Instance with recipient 42 and the text `"hi"`. -/
theorem NewTextMessage_text_omitted_when_empty_witness :
    ("hi" : GoString) ≠ "" ∧
    ((marshalTextMessage (NewTextMessage () 42 "")).get? "message" = some (.object []) ∧
      (marshalTextMessage (NewTextMessage () 42 "")).path ["message", "text"] = none ∧
      (marshalTextMessage (NewTextMessage () 42 "hi")).get? "message"
        = some (.object [("text", .string (coerceUTF8 "hi"))]) ∧
      (marshalTextMessage (NewTextMessage () 42 "hi")).path ["message", "text"]
        = some (.string (coerceUTF8 "hi")) ∧
      (ValidString "hi" = true →
        (marshalTextMessage (NewTextMessage () 42 "hi")).path ["message", "text"]
          = some (.string "hi"))) :=
  ⟨by decide, NewTextMessage_text_omitted_when_empty () 42 "hi" (by decide)⟩

/-- C6 fails as stated: for the non-empty text `"a\xffb"` (bytes `61 FF 62`, not valid
UTF-8) the serialized `NewTextMessage(42, "a\xffb")` has under `"text"` the value
`"a\ufffdb"` (bytes `61 EF BF BD 62`), not the text itself. -/
theorem NewTextMessage_invalid_utf8_text :
    ([0x61, 0xFF, 0x62] : GoString) ≠ "" ∧
    (marshalTextMessage (NewTextMessage () 42 [0x61, 0xFF, 0x62])).path ["message", "text"]
      = some (.string [0x61, 0xEF, 0xBF, 0xBD, 0x62]) ∧
    (marshalTextMessage (NewTextMessage () 42 [0x61, 0xFF, 0x62])).path ["message", "text"]
      ≠ some (.string [0x61, 0xFF, 0x62]) := by
  have hc : coerceUTF8 [0x61, 0xFF, 0x62] = [0x61, 0xEF, 0xBF, 0xBD, 0x62] := by decide
  have hne : ([0x61, 0xEF, 0xBF, 0xBD, 0x62] : GoString) ≠ [0x61, 0xFF, 0x62] := by decide
  have hg : (marshalTextMessage (NewTextMessage () 42 [0x61, 0xFF, 0x62])).path
      ["message", "text"] = some (.string [0x61, 0xEF, 0xBF, 0xBD, 0x62]) := by
    simp [marshalTextMessage, marshalTextMessageContent, NewTextMessage, JSON.path, JSON.get?,
      always, omitemptyString, stringValue, List.lookup, GoString.ofString_empty, hc]
  refine ⟨by decide, hg, ?_⟩
  rw [hg]
  intro h
  injection h with h
  injection h with h
  exact hne h

/-! ## Members of a serialized element -/

theorem marshalElement_get?_buttons (e : Element) :
    (marshalElement e).get? "buttons"
      = if e.Buttons = [] then none else some (.array (e.Buttons.map marshalButton)) := by
  obtain ⟨title, subtitle, itemURL, imageURL, buttons⟩ := e
  by_cases h1 : subtitle = [] <;> by_cases h2 : itemURL = [] <;>
    by_cases h3 : imageURL = [] <;> by_cases h4 : buttons = [] <;>
    simp [marshalElement, JSON.get?, always, omitemptyString, omitemptySlice,
      List.lookup, GoString.ofString_empty, h1, h2, h3, h4]

theorem buttons_mem_keys_marshalElement (e : Element) :
    "buttons" ∈ (marshalElement e).keys ↔ e.Buttons ≠ [] := by
  obtain ⟨title, subtitle, itemURL, imageURL, buttons⟩ := e
  by_cases h1 : subtitle = [] <;> by_cases h2 : itemURL = [] <;>
    by_cases h3 : imageURL = [] <;> by_cases h4 : buttons = [] <;>
    simp [marshalElement, JSON.keys, always, omitemptyString, omitemptySlice,
      GoString.ofString_empty, h1, h2, h3, h4]

/-- C7: the serialized object of every `Element` has the key `"title"` (also for an
empty `Title`), and has `"subtitle"`, `"item_url"`, `"image_url"`, `"buttons"` exactly
when `Subtitle`, `ItemURL`, `ImageURL`, `Buttons` is non-empty, then with the field's
value as the encoder writes it; none of these four members is ever `null`, `""` or
`[]`. -/
theorem marshalElement_members (e : Element) :
    ("title" ∈ (marshalElement e).keys ∧
      (marshalElement e).get? "title" = some (.string (coerceUTF8 e.Title))) ∧
    (("subtitle" ∈ (marshalElement e).keys ↔ e.Subtitle ≠ "") ∧
      (marshalElement e).get? "subtitle"
        = if e.Subtitle = "" then none else some (.string (coerceUTF8 e.Subtitle))) ∧
    (("item_url" ∈ (marshalElement e).keys ↔ e.ItemURL ≠ "") ∧
      (marshalElement e).get? "item_url"
        = if e.ItemURL = "" then none else some (.string (coerceUTF8 e.ItemURL))) ∧
    (("image_url" ∈ (marshalElement e).keys ↔ e.ImageURL ≠ "") ∧
      (marshalElement e).get? "image_url"
        = if e.ImageURL = "" then none else some (.string (coerceUTF8 e.ImageURL))) ∧
    (("buttons" ∈ (marshalElement e).keys ↔ e.Buttons ≠ []) ∧
      (marshalElement e).get? "buttons"
        = if e.Buttons = [] then none else some (.array (e.Buttons.map marshalButton))) ∧
    (∀ key ∈ ["subtitle", "item_url", "image_url", "buttons"],
      (marshalElement e).get? key ≠ some .null ∧
      (marshalElement e).get? key ≠ some (.string "") ∧
      (marshalElement e).get? key ≠ some (.array [])) := by
  obtain ⟨title, subtitle, itemURL, imageURL, buttons⟩ := e
  by_cases h1 : subtitle = [] <;> by_cases h2 : itemURL = [] <;>
    by_cases h3 : imageURL = [] <;> by_cases h4 : buttons = [] <;>
    simp [marshalElement, JSON.keys, JSON.get?, always, omitemptyString, omitemptySlice,
      stringValue, List.lookup, GoString.ofString_empty, coerceUTF8_eq_nil_iff,
      h1, h2, h3, h4]

/-- C8: each of `NewTextMessage`, `NewQuickReplyMessage`, `NewGenericMessage` returns a
message with empty `NotificationType`; a message with empty `NotificationType`
serializes without a `"notification_type"` key; with `NotificationType` set to one of
`REGULAR`, `SILENT_PUSH`, `NO_PUSH` the key is present with that value. -/
theorem notification_type_omitted_when_unset {Messenger : Type} (msng : Messenger) (r : Int)
    (text : GoString) (tm : TextMessage) (qm : QuickReplyMessage) (gm : GenericMessage)
    (nt : NotificationType)
    (hnt : nt ∈ [NotificationTypeRegular, NotificationTypeSilentPush, NotificationTypeNoPush]) :
    ((NewTextMessage msng r text).NotificationType = "" ∧
      (NewQuickReplyMessage msng r text).NotificationType = "" ∧
      (NewGenericMessage msng r).NotificationType = "") ∧
    ("notification_type" ∉ (marshalTextMessage (NewTextMessage msng r text)).keys ∧
      "notification_type" ∉
        (marshalQuickReplyMessage (NewQuickReplyMessage msng r text)).keys ∧
      "notification_type" ∉ (marshalGenericMessage (NewGenericMessage msng r)).keys) ∧
    ("notification_type" ∉ (marshalTextMessage { tm with NotificationType := "" }).keys ∧
      "notification_type" ∉
        (marshalQuickReplyMessage { qm with NotificationType := "" }).keys ∧
      "notification_type" ∉ (marshalGenericMessage { gm with NotificationType := "" }).keys) ∧
    ((marshalTextMessage { tm with NotificationType := nt }).get? "notification_type"
        = some (.string nt) ∧
      (marshalQuickReplyMessage { qm with NotificationType := nt }).get? "notification_type"
        = some (.string nt) ∧
      (marshalGenericMessage { gm with NotificationType := nt }).get? "notification_type"
        = some (.string nt)) := by
  have hne : nt ≠ [] := by
    simp only [List.mem_cons, List.mem_singleton, List.not_mem_nil, or_false] at hnt
    rcases hnt with h | h | h <;> subst h <;> decide
  have hval : coerceUTF8 nt = nt := by
    simp only [List.mem_cons, List.mem_singleton, List.not_mem_nil, or_false] at hnt
    rcases hnt with h | h | h <;> subst h <;> decide
  refine ⟨⟨rfl, rfl, rfl⟩, ⟨?_, ?_, ?_⟩, ⟨?_, ?_, ?_⟩, ⟨?_, ?_, ?_⟩⟩ <;>
    simp [marshalTextMessage, marshalQuickReplyMessage, marshalGenericMessage, NewTextMessage,
      NewQuickReplyMessage, NewGenericMessage, JSON.keys, JSON.get?, always, omitemptyString,
      stringValue, List.lookup, GoString.ofString_empty, hne, hval]

/-- Instance with `SILENT_PUSH` set on freshly built messages for recipient 7. -/
theorem notification_type_omitted_when_unset_witness :
    NotificationTypeSilentPush
      ∈ [NotificationTypeRegular, NotificationTypeSilentPush, NotificationTypeNoPush] ∧
    (((NewTextMessage () 7 "hi").NotificationType = "" ∧
        (NewQuickReplyMessage () 7 "hi").NotificationType = "" ∧
        (NewGenericMessage () 7).NotificationType = "") ∧
      ("notification_type" ∉ (marshalTextMessage (NewTextMessage () 7 "hi")).keys ∧
        "notification_type" ∉
          (marshalQuickReplyMessage (NewQuickReplyMessage () 7 "hi")).keys ∧
        "notification_type" ∉ (marshalGenericMessage (NewGenericMessage () 7)).keys) ∧
      ("notification_type" ∉
          (marshalTextMessage { NewTextMessage () 7 "hi" with NotificationType := "" }).keys ∧
        "notification_type" ∉
          (marshalQuickReplyMessage
            { NewQuickReplyMessage () 7 "hi" with NotificationType := "" }).keys ∧
        "notification_type" ∉
          (marshalGenericMessage { NewGenericMessage () 7 with NotificationType := "" }).keys) ∧
      ((marshalTextMessage
          { NewTextMessage () 7 "hi" with
            NotificationType := NotificationTypeSilentPush }).get? "notification_type"
          = some (.string "SILENT_PUSH") ∧
        (marshalQuickReplyMessage
          { NewQuickReplyMessage () 7 "hi" with
            NotificationType := NotificationTypeSilentPush }).get? "notification_type"
          = some (.string "SILENT_PUSH") ∧
        (marshalGenericMessage
          { NewGenericMessage () 7 with
            NotificationType := NotificationTypeSilentPush }).get? "notification_type"
          = some (.string "SILENT_PUSH"))) :=
  ⟨by decide,
    notification_type_omitted_when_unset () 7 "hi" (NewTextMessage () 7 "hi")
      (NewQuickReplyMessage () 7 "hi") (NewGenericMessage () 7) NotificationTypeSilentPush
      (by decide)⟩

/-- C9: on every message reached from `NewGenericMessage(r)` by appends,
`AddNewElement(title, subtitle, itemURL, imageURL, bs)` completes and leaves the same
message as `AddElement(NewElement(title, subtitle, itemURL, imageURL, bs))`, the
elements being the earlier ones followed by the element with exactly these five
fields; the two calls agree on every message whatsoever. -/
theorem AddNewElement_eq_AddElement_NewElement {Messenger : Type} (msng : Messenger) (r : Int)
    (cs : List GenericCall) (title subtitle itemURL imageURL : GoString) (bs : List Button) :
    (∃ m m' a a',
      runCalls (NewGenericMessage msng r) cs = .ok m ∧
      AddNewElement m title subtitle itemURL imageURL bs = .ok m' ∧
      AddElement m (NewElement msng title subtitle itemURL imageURL bs) = .ok m' ∧
      m.Message.Attachment = some a ∧
      m'.Message.Attachment = some a' ∧
      a'.Payload.Elements = a.Payload.Elements ++
        [{ Title := title, Subtitle := subtitle, ItemURL := itemURL, ImageURL := imageURL,
           Buttons := bs }]) ∧
    (∀ m : GenericMessage,
      AddNewElement m title subtitle itemURL imageURL bs
        = AddElement m (NewElement msng title subtitle itemURL imageURL bs)) ∧
    NewElement msng title subtitle itemURL imageURL bs
      = { Title := title, Subtitle := subtitle, ItemURL := itemURL, ImageURL := imageURL,
          Buttons := bs } := by
  refine ⟨⟨_, _, _, _, runCalls_NewGenericMessage msng r cs, AddElement_some _ _ _ rfl,
    AddElement_some _ _ _ rfl, rfl, rfl, ?_⟩, fun _ => rfl, rfl⟩
  rfl

/-- C10: for every element `e2` with buttons `[b1, b2]`, after
`m := NewGenericMessage(123)`,
`m.AddNewElement("Title", "Sub", "http://item", "http://img", nil)` and
`m.AddElement(e2)` the payload holds exactly two elements; the first has the four given
strings, no buttons and no `"buttons"` key when serialized, and the second is `e2`
with buttons `[b1, b2]` in that order. -/
theorem scenario_two_elements {Messenger : Type} (msng : Messenger) (e2 : Element)
    (b1 b2 : Button) (h : e2.Buttons = [b1, b2]) :
    ∃ m1 m2 a,
      AddNewElement (NewGenericMessage msng 123) "Title" "Sub" "http://item" "http://img" []
        = .ok m1 ∧
      AddElement m1 e2 = .ok m2 ∧
      m2.Message.Attachment = some a ∧
      a.Payload.Elements.length = 2 ∧
      a.Payload.Elements =
        [{ Title := "Title", Subtitle := "Sub", ItemURL := "http://item",
           ImageURL := "http://img", Buttons := [] }, e2] ∧
      a.Payload.Elements.map Element.Buttons = [[], [b1, b2]] ∧
      (a.Payload.Elements.map (fun e => (marshalElement e).get? "buttons"))
        = [none, some (.array [marshalButton b1, marshalButton b2])] ∧
      (a.Payload.Elements.map (fun e => decide ("buttons" ∈ (marshalElement e).keys)))
        = [false, true] := by
  refine ⟨_, _, _, AddElement_some _ _ _ rfl, AddElement_some _ _ _ rfl, rfl, rfl, rfl, ?_, ?_, ?_⟩
  · simp [NewGenericMessage, newElement, h]
  · simp [NewGenericMessage, newElement, marshalElement_get?_buttons, h]
  · simp [NewGenericMessage, newElement, buttons_mem_keys_marshalElement, h]

/-- Instance: the second element carries a web-link and a postback button. -/
theorem scenario_two_elements_witness :
    (newElement "Second" "" "" "" [NewWebURLButton () "Go" "http://x",
      NewPostbackButton () "Back" "cb"]).Buttons
      = [NewWebURLButton () "Go" "http://x", NewPostbackButton () "Back" "cb"] ∧
    ∃ m1 m2 a,
      AddNewElement (NewGenericMessage () 123) "Title" "Sub" "http://item" "http://img" []
        = .ok m1 ∧
      AddElement m1 (newElement "Second" "" "" "" [NewWebURLButton () "Go" "http://x",
        NewPostbackButton () "Back" "cb"]) = .ok m2 ∧
      m2.Message.Attachment = some a ∧
      a.Payload.Elements.length = 2 ∧
      a.Payload.Elements =
        [{ Title := "Title", Subtitle := "Sub", ItemURL := "http://item",
           ImageURL := "http://img", Buttons := [] },
         newElement "Second" "" "" "" [NewWebURLButton () "Go" "http://x",
           NewPostbackButton () "Back" "cb"]] ∧
      a.Payload.Elements.map Element.Buttons
        = [[], [NewWebURLButton () "Go" "http://x", NewPostbackButton () "Back" "cb"]] ∧
      (a.Payload.Elements.map (fun e => (marshalElement e).get? "buttons"))
        = [none, some (.array [marshalButton (NewWebURLButton () "Go" "http://x"),
            marshalButton (NewPostbackButton () "Back" "cb")])] ∧
      (a.Payload.Elements.map (fun e => decide ("buttons" ∈ (marshalElement e).keys)))
        = [false, true] :=
  ⟨rfl, scenario_two_elements () _ _ _ rfl⟩

/-! ## Appending quick replies -/

theorem addQuickReplies_eq (qs : List QuickReply) (m : QuickReplyMessage) :
    addQuickReplies m qs =
      { Message := { Text := m.Message.Text, QuickReplies := m.Message.QuickReplies ++ qs }
        Recipient := m.Recipient
        NotificationType := m.NotificationType } := by
  induction qs generalizing m with
  | nil => simp [addQuickReplies]
  | cons q qs ih => simp [addQuickReplies, ih, AddQuickReply]

theorem QuickReplyCall.run_frame (m : QuickReplyMessage) (c : QuickReplyCall) :
    (c.run m).Recipient = m.Recipient ∧ (c.run m).NotificationType = m.NotificationType ∧
      (c.run m).Message.Text = m.Message.Text := by
  cases c <;> exact ⟨rfl, rfl, rfl⟩

theorem runQuickReplyCalls_frame (cs : List QuickReplyCall) (m : QuickReplyMessage) :
    (runQuickReplyCalls m cs).Recipient = m.Recipient ∧
      (runQuickReplyCalls m cs).NotificationType = m.NotificationType ∧
      (runQuickReplyCalls m cs).Message.Text = m.Message.Text := by
  induction cs generalizing m with
  | nil => exact ⟨rfl, rfl, rfl⟩
  | cons c cs ih =>
    obtain ⟨h1, h2, h3⟩ := ih (c.run m)
    obtain ⟨g1, g2, g3⟩ := QuickReplyCall.run_frame m c
    exact ⟨h1.trans g1, h2.trans g2, h3.trans g3⟩

/-- C11: `AddQuickReply(qr)` leaves the quick replies equal to the earlier ones followed
by `qr`; hence `NewQuickReplyMessage(r, text)` followed by `AddQuickReply(q1)`, ...,
`AddQuickReply(qn)` has `QuickReplies` equal to `[q1, ..., qn]` in insertion order and
`Text` still equal to `text`. -/
theorem AddQuickReply_insertion_order {Messenger : Type} (msng : Messenger)
    (m : QuickReplyMessage) (qr : QuickReply) (r : Int) (text : GoString)
    (qs : List QuickReply) :
    (AddQuickReply m qr).Message.QuickReplies = m.Message.QuickReplies ++ [qr] ∧
    (addQuickReplies (NewQuickReplyMessage msng r text) qs).Message.QuickReplies = qs ∧
    (addQuickReplies (NewQuickReplyMessage msng r text) qs).Message.QuickReplies.length
      = qs.length ∧
    (addQuickReplies (NewQuickReplyMessage msng r text) qs).Message.Text = text := by
  refine ⟨rfl, ?_, ?_, ?_⟩ <;> simp [addQuickReplies_eq, NewQuickReplyMessage]

/-- C12: on every `QuickReplyMessage`, `AddNewQuickReply(contentType, title, payload,
imageURL)` leaves the same message as
`AddQuickReply(NewQuickReply(contentType, title, payload, imageURL))`, and the appended
`QuickReply` has `ContentType`, `Title`, `Payload`, `ImageURL` equal to the four
arguments in that order. -/
theorem AddNewQuickReply_eq_AddQuickReply_NewQuickReply {Messenger : Type} (msng : Messenger)
    (m : QuickReplyMessage) (contentType : ContentType) (title payload imageURL : GoString) :
    AddNewQuickReply m contentType title payload imageURL
      = AddQuickReply m (NewQuickReply msng contentType title payload imageURL) ∧
    NewQuickReply msng contentType title payload imageURL
      = { ContentType := contentType, Title := title, Payload := payload,
          ImageURL := imageURL } ∧
    (AddNewQuickReply m contentType title payload imageURL).Message.QuickReplies
      = m.Message.QuickReplies ++
        [{ ContentType := contentType, Title := title, Payload := payload,
           ImageURL := imageURL }] ∧
    (AddNewQuickReply m contentType title payload imageURL).Message.Text = m.Message.Text ∧
    (AddNewQuickReply m contentType title payload imageURL).Recipient = m.Recipient ∧
    (AddNewQuickReply m contentType title payload imageURL).NotificationType
      = m.NotificationType :=
  ⟨rfl, rfl, rfl, rfl, rfl, rfl⟩

/-! ## Completion of the append operations -/

theorem AddElement_ok_iff (m : GenericMessage) (e : Element) :
    (∃ m', AddElement m e = .ok m') ↔ m.Message.Attachment ≠ none := by
  cases hatt : m.Message.Attachment with
  | none => simp [AddElement_none m e hatt]
  | some a => simp [AddElement_some m a e hatt]

theorem AddElement_error_iff (m : GenericMessage) (e : Element) :
    AddElement m e = .error .nilPointerDereference ↔ m.Message.Attachment = none := by
  cases hatt : m.Message.Attachment with
  | none => simp [AddElement_none m e hatt]
  | some a => simp [AddElement_some m a e hatt]

/-- C14, as amended: `AddElement` and `AddNewElement` complete exactly on the
`GenericMessage` values whose `Message.Attachment` is non-nil and panic with a
nil-pointer dereference on the others; `AddQuickReply`, `AddNewQuickReply`,
`AddWebURLButton` and `AddPostbackButton` complete on every receiver value and
argument. -/
theorem append_operations_completion (m : GenericMessage) (e : Element)
    (title subtitle itemURL imageURL : GoString) (buttons : List Button)
    (qm : QuickReplyMessage) (qr : QuickReply) (contentType : ContentType)
    (payload URL : GoString) (el : Element) :
    (((∃ m', AddElement m e = .ok m') ↔ m.Message.Attachment ≠ none) ∧
      (AddElement m e = .error .nilPointerDereference ↔ m.Message.Attachment = none)) ∧
    (((∃ m', AddNewElement m title subtitle itemURL imageURL buttons = .ok m')
        ↔ m.Message.Attachment ≠ none) ∧
      (AddNewElement m title subtitle itemURL imageURL buttons
        = .error .nilPointerDereference ↔ m.Message.Attachment = none)) ∧
    (∃ qm', AddQuickReply qm qr = qm' ∧
      qm'.Message.QuickReplies = qm.Message.QuickReplies ++ [qr]) ∧
    (∃ qm', AddNewQuickReply qm contentType title payload imageURL = qm' ∧
      qm'.Message.QuickReplies = qm.Message.QuickReplies ++
        [newQuickReply contentType title payload imageURL]) ∧
    (∃ el', AddWebURLButton el title URL = el' ∧
      el'.Buttons.length = el.Buttons.length + 1) ∧
    (∃ el', AddPostbackButton el title payload = el' ∧
      el'.Buttons.length = el.Buttons.length + 1) := by
  refine ⟨⟨AddElement_ok_iff m e, AddElement_error_iff m e⟩,
    ⟨AddElement_ok_iff m _, AddElement_error_iff m _⟩,
    ⟨_, rfl, rfl⟩, ⟨_, rfl, rfl⟩, ⟨_, rfl, ?_⟩, ⟨_, rfl, ?_⟩⟩
  · simp [AddWebURLButton]
  · simp [AddPostbackButton]

/-- C14 fails as stated: on the zero value `GenericMessage{}`, whose `Attachment` is
nil, `AddElement` and `AddNewElement` panic with a nil-pointer dereference instead of
completing. -/
theorem AddElement_zero_GenericMessage_panics :
    AddElement
        { Message := { Attachment := none }, Recipient := { ID := 0 }, NotificationType := "" }
        { Title := "T", Subtitle := "", ItemURL := "", ImageURL := "", Buttons := [] }
      = .error .nilPointerDereference ∧
    AddNewElement
        { Message := { Attachment := none }, Recipient := { ID := 0 }, NotificationType := "" }
        "T" "" "" "" []
      = .error .nilPointerDereference ∧
    ¬ ∃ m', AddElement
        { Message := { Attachment := none }, Recipient := { ID := 0 }, NotificationType := "" }
        { Title := "T", Subtitle := "", ItemURL := "", ImageURL := "", Buttons := [] }
      = .ok m' := by
  refine ⟨rfl, rfl, ?_⟩
  rintro ⟨m', h⟩
  simp [AddElement] at h

/-- C15: each of `AddElement`, `AddNewElement`, `AddQuickReply`, `AddNewQuickReply`
leaves `Recipient` and `NotificationType` as they were (a call of the first two that
does not complete is the panic on a nil attachment), so after any sequence of appends
the recipient id is the id passed to the constructor. -/
theorem appends_keep_recipient {Messenger : Type} (msng : Messenger) (r : Int) (text : GoString)
    (cs : List GenericCall) (qcs : List QuickReplyCall) :
    (∀ (m : GenericMessage) (e : Element),
      match AddElement m e with
      | .ok m' => m'.Recipient = m.Recipient ∧ m'.NotificationType = m.NotificationType
      | .error _ => m.Message.Attachment = none) ∧
    (∀ (m : GenericMessage) (title subtitle itemURL imageURL : GoString) (bs : List Button),
      match AddNewElement m title subtitle itemURL imageURL bs with
      | .ok m' => m'.Recipient = m.Recipient ∧ m'.NotificationType = m.NotificationType
      | .error _ => m.Message.Attachment = none) ∧
    (∀ (m : QuickReplyMessage) (qr : QuickReply),
      (AddQuickReply m qr).Recipient = m.Recipient ∧
      (AddQuickReply m qr).NotificationType = m.NotificationType) ∧
    (∀ (m : QuickReplyMessage) (contentType : ContentType) (title payload imgURL : GoString),
      (AddNewQuickReply m contentType title payload imgURL).Recipient = m.Recipient ∧
      (AddNewQuickReply m contentType title payload imgURL).NotificationType
        = m.NotificationType) ∧
    (∃ m', runCalls (NewGenericMessage msng r) cs = .ok m' ∧
      m'.Recipient.ID = r ∧
      m'.NotificationType = (NewGenericMessage msng r).NotificationType) ∧
    ((runQuickReplyCalls (NewQuickReplyMessage msng r text) qcs).Recipient.ID = r ∧
      (runQuickReplyCalls (NewQuickReplyMessage msng r text) qcs).NotificationType
        = (NewQuickReplyMessage msng r text).NotificationType) := by
  have hadd : ∀ (m : GenericMessage) (e : Element),
      match AddElement m e with
      | .ok m' => m'.Recipient = m.Recipient ∧ m'.NotificationType = m.NotificationType
      | .error _ => m.Message.Attachment = none := by
    intro m e
    cases hatt : m.Message.Attachment with
    | none => simp [AddElement_none m e hatt]
    | some a => simp [AddElement_some m a e hatt]
  refine ⟨hadd, fun m _ _ _ _ _ => hadd m _, fun _ _ => ⟨rfl, rfl⟩,
    fun _ _ _ _ _ => ⟨rfl, rfl⟩, ⟨_, runCalls_NewGenericMessage msng r cs, rfl, rfl⟩, ?_⟩
  obtain ⟨h1, h2, _⟩ := runQuickReplyCalls_frame qcs (NewQuickReplyMessage msng r text)
  exact ⟨by rw [h1]; rfl, h2⟩

/-- C16: `AddWebURLButton(t, u)` leaves `Buttons` equal to the earlier buttons followed
by exactly `NewWebURLButton(t, u)`, and `AddPostbackButton(t, p)` leaves them equal to
the earlier buttons followed by exactly `NewPostbackButton(t, p)`; `Title`, `Subtitle`,
`ItemURL` and `ImageURL` are unchanged and the earlier buttons keep their places. -/
theorem AddButton_appends_constructed_button {Messenger : Type} (msng : Messenger)
    (e : Element) (t u p : GoString) :
    ((AddWebURLButton e t u).Buttons = e.Buttons ++ [NewWebURLButton msng t u] ∧
      (AddWebURLButton e t u).Title = e.Title ∧
      (AddWebURLButton e t u).Subtitle = e.Subtitle ∧
      (AddWebURLButton e t u).ItemURL = e.ItemURL ∧
      (AddWebURLButton e t u).ImageURL = e.ImageURL ∧
      (AddWebURLButton e t u).Buttons.take e.Buttons.length = e.Buttons) ∧
    ((AddPostbackButton e t p).Buttons = e.Buttons ++ [NewPostbackButton msng t p] ∧
      (AddPostbackButton e t p).Title = e.Title ∧
      (AddPostbackButton e t p).Subtitle = e.Subtitle ∧
      (AddPostbackButton e t p).ItemURL = e.ItemURL ∧
      (AddPostbackButton e t p).ImageURL = e.ImageURL ∧
      (AddPostbackButton e t p).Buttons.take e.Buttons.length = e.Buttons) := by
  refine ⟨⟨rfl, rfl, rfl, rfl, rfl, ?_⟩, ⟨rfl, rfl, rfl, rfl, rfl, ?_⟩⟩
  · simp [AddWebURLButton]
  · simp [AddPostbackButton]

/-- C17: every message reached from `NewGenericMessage(r)` by a finite sequence of
`AddElement` / `AddNewElement` calls has a non-nil `Message.Attachment`, so a further
`AddElement` completes on it; and on any message with a non-nil attachment `AddElement`
completes and leaves the attachment non-nil. -/
theorem attachment_present_on_reachable {Messenger : Type} (msng : Messenger) (r : Int)
    (cs : List GenericCall) (e : Element) :
    (∃ m a, runCalls (NewGenericMessage msng r) cs = .ok m ∧
      m.Message.Attachment = some a ∧
      ∃ m' a', AddElement m e = .ok m' ∧ m'.Message.Attachment = some a') ∧
    (∀ (a : attachment) (rcp : recipient) (nt : NotificationType),
      ∃ m' a',
        AddElement { Message := { Attachment := some a }, Recipient := rcp,
                     NotificationType := nt } e = .ok m' ∧
        m'.Message.Attachment = some a') := by
  refine ⟨⟨_, _, runCalls_NewGenericMessage msng r cs, rfl, _, _,
    AddElement_some _ _ _ rfl, rfl⟩, fun a rcp nt => ⟨_, _, AddElement_some _ _ _ rfl, rfl⟩⟩

/-! ## Decoding what was encoded -/

theorem formatUintAux_positive_head (fuel u : Nat) (hpos : 0 < u) (h : u < fuel) :
    ∃ d cs, 0 < d ∧ d < 10 ∧ formatUintAux fuel u = digitChar d :: cs := by
  induction fuel generalizing u with
  | zero => omega
  | succ fuel ih =>
    unfold formatUintAux
    split
    · next hlt => exact ⟨u, [], hpos, hlt, rfl⟩
    · next hge =>
      obtain ⟨d, cs, hd0, hd, hcs⟩ := ih (u / 10) (by omega) (by omega)
      exact ⟨d, cs ++ [digitChar (u % 10)], hd0, hd, by rw [hcs]; rfl⟩

theorem digitChar_ne_zero (d : Nat) (h0 : 0 < d) (h : d < 10) : digitChar d ≠ '0' := by
  interval_cases d <;> decide

theorem hasLeadingZero_formatUint (n : Nat) : hasLeadingZero (formatUint n) = false := by
  rcases Nat.eq_zero_or_pos n with h | h
  · subst h; rfl
  · obtain ⟨d, cs, hd0, hd, hcs⟩ := formatUintAux_positive_head (n + 1) n h (Nat.lt_succ_self n)
    unfold formatUint
    rw [hcs]
    cases cs with
    | nil => rfl
    | cons c cs => simp [hasLeadingZero, digitChar_ne_zero d hd0 hd]

theorem integerDigits_FormatInt (i : Int) :
    integerDigits (FormatInt i).data = formatUint i.natAbs := by
  by_cases hneg : i < 0
  · simp [FormatInt, hneg, integerDigits]
  · obtain ⟨d, cs, hd, hcs⟩ := formatUintAux_head i.natAbs i.natAbs
    simp only [FormatInt, hneg, if_false, formatUint, hcs, integerDigits,
      digitChar_ne_minus d hd]

theorem digitChar_ascii (d : Nat) (h : d < 10) : (digitChar d).toNat < 0x80 := by
  interval_cases d <;> decide

theorem formatUintAux_ascii (fuel u : Nat) :
    ∀ c ∈ formatUintAux fuel u, c.toNat < 0x80 := by
  induction fuel generalizing u with
  | zero => simp [formatUintAux]
  | succ fuel ih =>
    unfold formatUintAux
    split
    · next hlt =>
      intro c hc
      simp only [List.mem_singleton] at hc
      subst hc
      exact digitChar_ascii u hlt
    · intro c hc
      simp only [List.mem_append, List.mem_singleton] at hc
      rcases hc with hc | hc
      · exact ih _ c hc
      · subst hc
        exact digitChar_ascii _ (Nat.mod_lt _ (by decide))

theorem FormatInt_ascii (i : Int) : ∀ c ∈ (FormatInt i).data, c.toNat < 0x80 := by
  intro c hc
  by_cases hneg : i < 0
  · simp only [FormatInt, hneg, if_true, List.mem_cons] at hc
    rcases hc with hc | hc
    · subst hc; decide
    · exact formatUintAux_ascii _ _ c hc
  · simp only [FormatInt, hneg, if_false] at hc
    exact formatUintAux_ascii _ _ c hc

theorem byteChar_encodeRune_ascii (c : Char) (h : c.toNat < 0x80) :
    (GoString.encodeRune c).map byteChar = [c] := by
  have hval : (Fin.ofNat c.toNat : Fin 256).val = c.toNat := by
    simp only [Fin.ofNat, Nat.succ_eq_add_one]
    omega
  simp [GoString.encodeRune, h, byteChar, hval, Char.ofNat_toNat]

theorem map_byteChar_ofString_ascii (cs : List Char) (h : ∀ c ∈ cs, c.toNat < 0x80) :
    (GoString.ofString (String.mk cs)).map byteChar = cs := by
  induction cs with
  | nil => rfl
  | cons c cs ih =>
    have hc := byteChar_encodeRune_ascii c (h c (List.mem_cons_self _ _))
    have hcs := ih (fun x hx => h x (List.mem_cons_of_mem _ hx))
    simp only [GoString.ofString, List.flatMap_cons, List.map_append] at hcs ⊢
    rw [hc, hcs]
    rfl

theorem parseInt64_FormatInt (i : Int) (h : isInt64 i) :
    parseInt64 (GoString.ofString (FormatInt i)) = some i := by
  have hmap : (GoString.ofString (FormatInt i)).map byteChar = (FormatInt i).data :=
    map_byteChar_ofString_ascii (FormatInt i).data (FormatInt_ascii i)
  have hmk : String.mk (FormatInt i).data = FormatInt i := rfl
  simp [parseInt64, hmap, hmk, integerDigits_FormatInt, hasLeadingZero_formatUint,
    decimalValue_FormatInt, h]

theorem decodeItems_map {α : Type} (enc : α → JSON) (dec : JSON → Option α) (xs : List α)
    (h : ∀ a ∈ xs, dec (enc a) = some a) :
    decodeItems dec (xs.map enc) = some xs := by
  induction xs with
  | nil => rfl
  | cons x xs ih =>
    have hx := h x (List.mem_cons_self _ _)
    have hxs := ih (fun a ha => h a (List.mem_cons_of_mem _ ha))
    simp [decodeItems, hx, hxs]

theorem unmarshalButton_marshalButton (b : Button) (hv : b.validUTF8 = true) :
    unmarshalButton (marshalButton b) = some b := by
  obtain ⟨type, url, title, payload⟩ := b
  simp only [Button.validUTF8, Bool.and_eq_true] at hv
  obtain ⟨⟨⟨h1, h2⟩, h3⟩, h4⟩ := hv
  have e1 := coerceUTF8_of_valid _ h1
  have e2 := coerceUTF8_of_valid _ h2
  have e3 := coerceUTF8_of_valid _ h3
  have e4 := coerceUTF8_of_valid _ h4
  by_cases c1 : url = [] <;> by_cases c2 : payload = [] <;>
    simp [unmarshalButton, marshalButton, stringMember, JSON.get?, always, omitemptyString,
      stringValue, List.lookup, GoString.ofString_empty, c1, c2, e1, e2, e3, e4]

theorem unmarshalElement_marshalElement (e : Element) (hv : e.validUTF8 = true) :
    unmarshalElement (marshalElement e) = some e := by
  obtain ⟨title, subtitle, itemURL, imageURL, buttons⟩ := e
  simp only [Element.validUTF8, Bool.and_eq_true, List.all_eq_true] at hv
  obtain ⟨⟨⟨⟨h1, h2⟩, h3⟩, h4⟩, h5⟩ := hv
  have e1 := coerceUTF8_of_valid _ h1
  have e2 := coerceUTF8_of_valid _ h2
  have e3 := coerceUTF8_of_valid _ h3
  have e4 := coerceUTF8_of_valid _ h4
  have hb := decodeItems_map marshalButton unmarshalButton buttons
    (fun b hb => unmarshalButton_marshalButton b (h5 b hb))
  by_cases c1 : subtitle = [] <;> by_cases c2 : itemURL = [] <;>
    by_cases c3 : imageURL = [] <;> by_cases c4 : buttons = [] <;>
    simp [unmarshalElement, marshalElement, stringMember, sliceMember, JSON.get?, always,
      omitemptyString, omitemptySlice, stringValue, List.lookup, GoString.ofString_empty,
      c1, c2, c3, c4, hb, e1, e2, e3, e4]

theorem unmarshalPayload_marshalPayload (p : payload) (ht : ValidString p.TemplateType = true)
    (he : ∀ e ∈ p.Elements, e.validUTF8 = true) :
    unmarshalPayload (marshalPayload p) = some p := by
  obtain ⟨templateType, elements⟩ := p
  have e1 := coerceUTF8_of_valid _ ht
  have hd := decodeItems_map marshalElement unmarshalElement elements
    (fun e h => unmarshalElement_marshalElement e (he e h))
  simp only at e1
  by_cases c1 : templateType = [] <;> by_cases c2 : elements = [] <;>
    simp [unmarshalPayload, marshalPayload, stringMember, sliceMember, JSON.get?,
      omitemptyString, omitemptySlice, stringValue, List.lookup, GoString.ofString_empty,
      c1, c2, hd, e1]

theorem unmarshalAttachment_marshalAttachment (a : attachment)
    (hty : ValidString a.Type_ = true) (ht : ValidString a.Payload.TemplateType = true)
    (he : ∀ e ∈ a.Payload.Elements, e.validUTF8 = true) :
    unmarshalAttachment (marshalAttachment a) = some a := by
  obtain ⟨type, p⟩ := a
  have hp := unmarshalPayload_marshalPayload p ht he
  have e1 := coerceUTF8_of_valid _ hty
  simp only at e1
  by_cases c1 : type = [] <;>
    simp [unmarshalAttachment, marshalAttachment, stringMember, structMember, JSON.get?,
      omitemptyString, omitemptyStruct, stringValue, List.lookup, GoString.ofString_empty,
      c1, hp, e1]

theorem unmarshalRecipient_marshalRecipient (r : recipient) (h : isInt64 r.ID) :
    unmarshalRecipient (marshalRecipient r) = some r := by
  obtain ⟨id⟩ := r
  simp [unmarshalRecipient, marshalRecipient, quotedInt64Member, quotedInt64, JSON.get?,
    List.lookup, parseInt64_FormatInt id h]

theorem unmarshalGenericMessage_marshalGenericMessage (a : attachment) (r : Int)
    (nt : NotificationType) (h : isInt64 r) (hnt : ValidString nt = true)
    (hty : ValidString a.Type_ = true) (ht : ValidString a.Payload.TemplateType = true)
    (he : ∀ e ∈ a.Payload.Elements, e.validUTF8 = true) :
    unmarshalGenericMessage (marshalGenericMessage
        { Message := { Attachment := some a }, Recipient := { ID := r },
          NotificationType := nt })
      = some { Message := { Attachment := some a }, Recipient := { ID := r },
               NotificationType := nt } := by
  have ha := unmarshalAttachment_marshalAttachment a hty ht he
  have hr := unmarshalRecipient_marshalRecipient { ID := r } h
  have e1 := coerceUTF8_of_valid _ hnt
  by_cases c1 : nt = [] <;>
    simp [unmarshalGenericMessage, marshalGenericMessage, unmarshalGenericMessageContent,
      marshalGenericMessageContent, stringMember, structMember, ptrMember, JSON.get?, always,
      omitemptyString, omitemptyPtr, stringValue, List.lookup, GoString.ofString_empty,
      c1, ha, hr, e1]

/-- C13, as amended: for a message built by `NewGenericMessage(r)` (`r` an `int64`)
holding one element with two buttons, all of whose strings are valid UTF-8,
deserializing its serialized form yields a `GenericMessage` equal to the original: same
recipient id, attachment type `"template"`, template type `"generic"`, same element
title and subtitle, and the same two buttons in the same order with the same types. -/
theorem GenericMessage_round_trip {Messenger : Type} (msng : Messenger) (r : Int)
    (hr : isInt64 r) (e : Element) (b1 b2 : Button) (hb : e.Buttons = [b1, b2])
    (hv : e.validUTF8 = true) :
    ∃ m, AddElement (NewGenericMessage msng r) e = .ok m ∧
      unmarshalGenericMessage (marshalGenericMessage m) = some m ∧
      ∃ m' a', unmarshalGenericMessage (marshalGenericMessage m) = some m' ∧
        m'.Recipient.ID = r ∧
        m'.Message.Attachment = some a' ∧
        a'.Type_ = "template" ∧
        a'.Payload.TemplateType = "generic" ∧
        a'.Payload.Elements = [e] ∧
        a'.Payload.Elements.map Element.Title = [e.Title] ∧
        a'.Payload.Elements.map Element.Subtitle = [e.Subtitle] ∧
        a'.Payload.Elements.map Element.Buttons = [[b1, b2]] ∧
        a'.Payload.Elements.map (fun x => x.Buttons.map Button.Type_)
          = [[b1.Type_, b2.Type_]] := by
  have h1 : ValidString (GoString.ofString "") = true := by decide
  have h2 : ValidString (GoString.ofString "template") = true := by decide
  have h3 : ValidString (GoString.ofString "generic") = true := by decide
  have hround := unmarshalGenericMessage_marshalGenericMessage
    { Type_ := "template", Payload := { TemplateType := "generic", Elements := [e] } }
    r "" hr h1 h2 h3
    (by intro x hx; simp only [List.mem_singleton] at hx; subst hx; exact hv)
  refine ⟨_, AddElement_some _ _ e rfl, hround, _, _, hround, rfl, rfl, rfl, rfl, ?_, ?_, ?_,
    ?_, ?_⟩
  · rfl
  · rfl
  · rfl
  · simp [hb]
  · simp [hb]

/-- Instance: recipient 123 and one element titled `"Title"` with subtitle `"Sub"`, a
web-link button and a postback button. -/
theorem GenericMessage_round_trip_witness :
    isInt64 123 ∧
    (newElement "Title" "Sub" "" ""
      [NewWebURLButton () "Go" "http://x", NewPostbackButton () "Back" "cb"]).Buttons
      = [NewWebURLButton () "Go" "http://x", NewPostbackButton () "Back" "cb"] ∧
    (newElement "Title" "Sub" "" ""
      [NewWebURLButton () "Go" "http://x", NewPostbackButton () "Back" "cb"]).validUTF8
      = true ∧
    ∃ m, AddElement (NewGenericMessage () 123)
        (newElement "Title" "Sub" "" ""
          [NewWebURLButton () "Go" "http://x", NewPostbackButton () "Back" "cb"]) = .ok m ∧
      unmarshalGenericMessage (marshalGenericMessage m) = some m ∧
      ∃ m' a', unmarshalGenericMessage (marshalGenericMessage m) = some m' ∧
        m'.Recipient.ID = 123 ∧
        m'.Message.Attachment = some a' ∧
        a'.Type_ = "template" ∧
        a'.Payload.TemplateType = "generic" ∧
        a'.Payload.Elements = [newElement "Title" "Sub" "" ""
          [NewWebURLButton () "Go" "http://x", NewPostbackButton () "Back" "cb"]] ∧
        a'.Payload.Elements.map Element.Title = ["Title"] ∧
        a'.Payload.Elements.map Element.Subtitle = ["Sub"] ∧
        a'.Payload.Elements.map Element.Buttons
          = [[NewWebURLButton () "Go" "http://x", NewPostbackButton () "Back" "cb"]] ∧
        a'.Payload.Elements.map (fun x => x.Buttons.map Button.Type_)
          = [[GoString.ofString "web_url", GoString.ofString "postback"]] :=
  ⟨by decide, rfl, by decide,
    GenericMessage_round_trip () 123 (by decide)
      (newElement "Title" "Sub" "" ""
        [NewWebURLButton () "Go" "http://x", NewPostbackButton () "Back" "cb"])
      _ _ rfl (by decide)⟩

/-- C13 fails as stated: the message built by `NewGenericMessage(123)` with one element
of title `"a\xffb"` (bytes `61 FF 62`, not valid UTF-8), subtitle `"Sub"`, a web-link
button and a postback button is serialized with the title `"a\ufffdb"`, so deserializing
yields a message with title bytes `61 EF BF BD 62`, not the original. -/
theorem GenericMessage_invalid_utf8_title_not_restored :
    ∃ m, AddElement (NewGenericMessage () 123)
        (newElement [0x61, 0xFF, 0x62] "Sub" "" ""
          [NewWebURLButton () "Go" "http://x", NewPostbackButton () "Back" "cb"]) = .ok m ∧
      unmarshalGenericMessage (marshalGenericMessage m) ≠ some m ∧
      (unmarshalGenericMessage (marshalGenericMessage m)).map
          (fun m' => m'.Message.Attachment.map
            (fun a => a.Payload.Elements.map Element.Title))
        = some (some [[0x61, 0xEF, 0xBF, 0xBD, 0x62]]) := by
  refine ⟨_, AddElement_some _ _ _ rfl, ?_, ?_⟩ <;> decide

end messenger
